import Mathlib

/-!
# Ikiraha backend: credential and session-token lifecycle

A shallow embedding of `backend/middleware/auth.js` and `backend/routes/auth.js`.

* The two MySQL tables the handlers touch (`users`, `refresh_tokens`, as created in
  `backend/config/database.js`) are lists of rows inside a `Store`; every SQL statement of the
  source is one function on the `Store`.
* `executeQuery` may throw.  A request carries a fault schedule `faults : Nat → Bool`; the k-th
  `executeQuery` call made while the request is served throws when `faults k` holds.  Writes made
  before a throw stay in the store, as they do in the source (no transactions).
* `jsonwebtoken`, `bcrypt` and `crypto.randomBytes` are libraries: they are fields of `Env`
  (signing, verification, hashing, comparison) and of `Ctx` (the entropy drawn by one request).
* Time is a natural number of seconds; `Ctx.now` is both `new Date()` and SQL `NOW()`. The
  `setHours` and `setDate` arithmetic of `Date` works on the local wall clock of the process, so
  its result is a field of `Env`, not a fixed number of seconds.
* SQL string comparison is modelled as equality of strings.
* The express-validator chains of `middleware/validation.js` run before a handler and are not part
  of the handlers embedded here: a handler is modelled on the request bodies that reach it.
* A statement about what a handler answers is made for requests whose queries are served, as a
  hypothesis on the fault schedule; a statement that holds under every schedule says so.
-/

namespace Ikiraha

/-! ## Data model -/

/-- A JSON scalar as it appears in a row object returned by the driver. -/
inductive Val where
  | null : Val
  | num (n : Nat) : Val
  | str (s : String) : Val
  | bool (b : Bool) : Val
  deriving DecidableEq, Repr

/-- A JavaScript object with scalar fields: its keys with their values, in order. -/
abbrev Obj := List (String × Val)

/-- Field access `o.k`; `none` is `undefined`. -/
def Obj.get (o : Obj) (k : String) : Option Val :=
  match o with
  | [] => none
  | (k', v) :: rest => if k' = k then some v else Obj.get rest k

/-- The statement `delete o.k`. -/
def Obj.delete (o : Obj) (k : String) : Obj :=
  o.filter (fun kv => !(kv.1 == k))

/-- Whether the object has an own field `k`. -/
def Obj.has (o : Obj) (k : String) : Bool :=
  o.any (fun kv => kv.1 == k)

/-- A row of table `users` (`createTables` in `config/database.js`).  Column `is_admin` is read by
`requireAdmin` but is not created by `createTables` (the source comment says it can be added); the
field holds its value for a table that has the column (`Env.hasAdminColumn`), `none` standing for
NULL. -/
structure UserRow where
  id : Nat
  email : String
  password : String
  first_name : String
  last_name : String
  phone_number : Option String
  profile_image_url : Option String
  is_email_verified : Bool
  email_verification_token : Option String
  password_reset_token : Option String
  password_reset_expires : Option Nat
  created_at : Nat
  updated_at : Nat
  last_login_at : Option Nat
  is_admin : Option Bool
  deriving DecidableEq, Repr

/-- A row of table `refresh_tokens`. -/
structure RefreshTokenRow where
  id : Nat
  user_id : Nat
  token : String
  expires_at : Nat
  created_at : Nat
  deriving DecidableEq, Repr

/-- The database: both tables and their AUTO_INCREMENT counters. -/
structure Store where
  users : List UserRow
  refresh_tokens : List RefreshTokenRow
  nextUserId : Nat
  nextRefreshId : Nat
  deriving DecidableEq, Repr

/-- Decoded claims of a token, as `jwt.verify` returns them. -/
structure Decoded where
  userId : Nat
  email : String
  iat : Nat
  exp : Nat
  deriving DecidableEq, Repr

/-- Process-wide collaborators: the token and hashing libraries and the configured lifetimes. -/
structure Env where
  /-- Models `jwt.sign({userId, email}, JWT_SECRET, {expiresIn})` at time `now`. -/
  jwtSign : (userId : Nat) → (email : String) → (expiresIn : Nat) → (now : Nat) → String
  /-- Models `jwt.verify(token, JWT_SECRET)` at time `now`; `none` when it throws. -/
  jwtVerify : (token : String) → (now : Nat) → Option Decoded
  /-- Models `bcrypt.hash(password, saltRounds)` with the salt drawn for this call. -/
  bcryptHash : (password : String) → (saltRounds : Nat) → (salt : Nat) → String
  /-- Models `bcrypt.compare(password, hash)`. -/
  bcryptCompare : (password : String) → (hash : String) → Bool
  JWT_EXPIRES_IN : Nat
  JWT_REFRESH_EXPIRES_IN : Nat
  /-- The value of `parseInt(process.env.BCRYPT_SALT_ROUNDS)`; `none` is NaN. -/
  BCRYPT_SALT_ROUNDS : Option Nat
  /-- Models `d.setHours(d.getHours() + hours)` on the `Date` taken at `now`: the instant the
  local wall clock of the process shows that many hours later (across a change of daylight saving
  time this is not `now + 3600 * hours`). -/
  addLocalHours : (now : Nat) → (hours : Nat) → Nat
  /-- Models `d.setDate(d.getDate() + days)` on the `Date` taken at `now`: the same local
  wall-clock time that many calendar days later. -/
  addLocalDays : (now : Nat) → (days : Nat) → Nat
  /-- Whether table `users` has a column `is_admin`. `createTables` creates none; the source
  comment in `requireAdmin` says it can be added. -/
  hasAdminColumn : Bool

/-- What one request draws from its surroundings: the clock, the storage faults, the entropy. -/
structure Ctx where
  now : Nat
  /-- Whether the k-th `executeQuery` call of this request throws. -/
  faults : Nat → Bool
  /-- The salt `bcrypt.hash` draws. -/
  salt : Nat
  /-- The value of `crypto.randomBytes(32).toString("hex")`. -/
  randomHex : String

/-- The database as a request sees it: the store and the number of queries issued so far. -/
structure Db where
  store : Store
  q : Nat

/-- The `data` member of a response body. -/
structure Data where
  user : Option Obj
  accessToken : Option String
  refreshToken : Option String
  deriving DecidableEq, Repr

/-- A response body `{success, message, data}`; absent members are `none`. -/
structure Body where
  success : Bool
  message : Option String
  data : Option Data
  deriving DecidableEq, Repr

/-- One `res.status(status).json(body)` call (`res.json(body)` has status 200). -/
structure Response where
  status : Nat
  body : Body
  deriving DecidableEq, Repr

/-- A body `{success: false, message}`. -/
def failure (status : Nat) (message : String) : Response :=
  { status := status, body := { success := false, message := some message, data := none } }

/-! ## Rows as objects -/

/-- An optional string column as a JSON scalar. -/
def optStr : Option String → Val
  | none => Val.null
  | some s => Val.str s

/-- An optional number column as a JSON scalar. -/
def optNum : Option Nat → Val
  | none => Val.null
  | some n => Val.num n

/-- An optional boolean column as a JSON scalar. -/
def optBool : Option Bool → Val
  | none => Val.null
  | some b => Val.bool b

/-- The value of column `c` of a user row. -/
def UserRow.col (u : UserRow) (c : String) : Val :=
  if c = "id" then Val.num u.id
  else if c = "email" then Val.str u.email
  else if c = "password" then Val.str u.password
  else if c = "first_name" then Val.str u.first_name
  else if c = "last_name" then Val.str u.last_name
  else if c = "phone_number" then optStr u.phone_number
  else if c = "profile_image_url" then optStr u.profile_image_url
  else if c = "is_email_verified" then Val.bool u.is_email_verified
  else if c = "email_verification_token" then optStr u.email_verification_token
  else if c = "password_reset_token" then optStr u.password_reset_token
  else if c = "password_reset_expires" then optNum u.password_reset_expires
  else if c = "created_at" then Val.num u.created_at
  else if c = "updated_at" then Val.num u.updated_at
  else if c = "last_login_at" then optNum u.last_login_at
  else if c = "is_admin" then optBool u.is_admin
  else Val.null

/-- The row object of `SELECT cols FROM users`. -/
def UserRow.select (cols : List String) (u : UserRow) : Obj :=
  cols.map (fun c => (c, u.col c))

/-- The column list `id, email, first_name, last_name, phone_number, profile_image_url,
is_email_verified` shared by the auth gate and the refresh handler. -/
def profileCols : List String :=
  ["id", "email", "first_name", "last_name", "phone_number", "profile_image_url",
    "is_email_verified"]

/-- The column list of the final SELECT of the register handler. -/
def registerCols : List String := profileCols ++ ["created_at"]

/-- The column list of the SELECT of the login handler. -/
def loginCols : List String :=
  ["id", "email", "password", "first_name", "last_name", "phone_number", "profile_image_url",
    "is_email_verified"]

/-! ## SQL statements -/

/-- The effect of `executeQuery`: the k-th call throws when the schedule says so or when the
statement itself fails (`none`); otherwise the statement runs on the store. -/
def executeQuery {α : Type} (cx : Ctx) (stmt : Store → Option (α × Store)) (db : Db) :
    Option α × Db :=
  if cx.faults db.q then (none, { db with q := db.q + 1 })
  else
    match stmt db.store with
    | none => (none, { db with q := db.q + 1 })
    | some (a, s) => (some a, { store := s, q := db.q + 1 })

/-- Rows of `SELECT ... FROM users WHERE email = ?`. -/
def selectUsersByEmail (email : String) (s : Store) : Option (List UserRow × Store) :=
  some (s.users.filter (fun u => u.email == email), s)

/-- Rows of `SELECT ... FROM users WHERE id = ?`. -/
def selectUsersById (id : Nat) (s : Store) : Option (List UserRow × Store) :=
  some (s.users.filter (fun u => u.id == id), s)

/-- The row that `INSERT INTO users (email, password, first_name, last_name, phone_number,
email_verification_token)` creates: the six given columns, the id, and the column defaults. -/
def newUser (now : Nat) (id : Nat) (email password firstName lastName : String)
    (phoneNumber : Option String) (verificationToken : String) : UserRow :=
  { id := id, email := email, password := password,
    first_name := firstName, last_name := lastName, phone_number := phoneNumber,
    profile_image_url := none, is_email_verified := false,
    email_verification_token := some verificationToken,
    password_reset_token := none, password_reset_expires := none,
    created_at := now, updated_at := now, last_login_at := none, is_admin := none }

/-- The statement `INSERT INTO users (...) VALUES (...)`: fails on a duplicate email (UNIQUE) or
id (PRIMARY KEY), otherwise appends the row with the next id and returns `insertId`. -/
def insertUser (now : Nat) (email password firstName lastName : String)
    (phoneNumber : Option String) (verificationToken : String) (s : Store) :
    Option (Nat × Store) :=
  if s.users.any (fun u => u.email == email || u.id == s.nextUserId) then none
  else
    some (s.nextUserId,
      { s with
        users := s.users ++
          [newUser now s.nextUserId email password firstName lastName phoneNumber
            verificationToken],
        nextUserId := s.nextUserId + 1 })

/-- An UPDATE of the rows with the given id: a row the assignment changes also gets
`updated_at = now` (column default `ON UPDATE CURRENT_TIMESTAMP`). -/
def updateUsersById (now : Nat) (id : Nat) (assign : UserRow → UserRow) (s : Store) :
    Option (Unit × Store) :=
  some ((),
    { s with
      users := s.users.map (fun u =>
        if u.id == id then
          (if assign u = u then u else { assign u with updated_at := now })
        else u) })

/-- The statement `INSERT INTO refresh_tokens (user_id, token, expires_at) VALUES (?, ?, ?)`: fails
when no user has that id (FOREIGN KEY), otherwise appends a row. -/
def insertRefreshToken (now : Nat) (userId : Nat) (token : String) (expiresAt : Nat)
    (s : Store) : Option (Unit × Store) :=
  if s.users.any (fun u => u.id == userId) then
    some ((),
      { s with
        refresh_tokens := s.refresh_tokens ++ [{
          id := s.nextRefreshId, user_id := userId, token := token,
          expires_at := expiresAt, created_at := now }],
        nextRefreshId := s.nextRefreshId + 1 })
  else none

/-- Rows of `SELECT user_id FROM refresh_tokens WHERE token = ? AND expires_at > NOW()`. -/
def selectLiveRefreshTokens (now : Nat) (token : String) (s : Store) :
    Option (List RefreshTokenRow × Store) :=
  some (s.refresh_tokens.filter (fun r => r.token == token && decide (now < r.expires_at)), s)

/-- The statement `DELETE FROM refresh_tokens WHERE token = ?`. -/
def deleteRefreshToken (token : String) (s : Store) : Option (Unit × Store) :=
  some ((), { s with refresh_tokens := s.refresh_tokens.filter (fun r => !(r.token == token)) })

/-- Rows of `SELECT id FROM users WHERE password_reset_token = ? AND password_reset_expires >
NOW()`. -/
def selectUsersByResetToken (now : Nat) (token : String) (s : Store) :
    Option (List UserRow × Store) :=
  some (s.users.filter (fun u =>
    u.password_reset_token == some token &&
      (match u.password_reset_expires with
        | none => false
        | some e => decide (now < e))), s)

/-! ## Token issuer (`middleware/auth.js`) -/

/-- Models `generateToken(payload)` with the default lifetime `JWT_EXPIRES_IN`. -/
def generateToken (env : Env) (now : Nat) (userId : Nat) (email : String) : String :=
  env.jwtSign userId email env.JWT_EXPIRES_IN now

/-- Models `generateRefreshToken(payload)`. -/
def generateRefreshToken (env : Env) (now : Nat) (userId : Nat) (email : String) : String :=
  env.jwtSign userId email env.JWT_REFRESH_EXPIRES_IN now

/-- Models `verifyToken(token)`: the decoded claims, or the error `Invalid or expired token`. -/
def verifyToken (env : Env) (now : Nat) (token : String) : Except String Decoded :=
  match env.jwtVerify token now with
  | some d => Except.ok d
  | none => Except.error "Invalid or expired token"

/-- Models `parseInt(process.env.BCRYPT_SALT_ROUNDS) || 12`. -/
def saltRounds (env : Env) : Nat :=
  match env.BCRYPT_SALT_ROUNDS with
  | none => 12
  | some n => if n = 0 then 12 else n

/-! ## Refresh-token ledger (`middleware/auth.js`) -/

/-- Models `storeRefreshToken(userId, refreshToken)`: inserts the row with the expiry
`setDate(getDate() + 30)` gives; a failure is logged and thrown again (`none`). -/
def storeRefreshToken (env : Env) (cx : Ctx) (userId : Nat) (refreshToken : String) (db : Db) :
    Option Unit × Db :=
  executeQuery cx (insertRefreshToken cx.now userId refreshToken (env.addLocalDays cx.now 30)) db

/-- Models `validateRefreshToken(refreshToken)`: the decoded claims, or the error thrown. Every
failure inside the `try` is replaced by the same error in the `catch`. -/
def validateRefreshToken (env : Env) (cx : Ctx) (refreshToken : String) (db : Db) :
    Except String Decoded × Db :=
  match verifyToken env cx.now refreshToken with
  | Except.error _ => (Except.error "Invalid or expired refresh token", db)
  | Except.ok decoded =>
    match executeQuery cx (selectLiveRefreshTokens cx.now refreshToken) db with
    | (none, db1) => (Except.error "Invalid or expired refresh token", db1)
    | (some tokenRecord, db1) =>
      if tokenRecord.length = 0 then (Except.error "Invalid or expired refresh token", db1)
      else (Except.ok decoded, db1)

/-- Models `removeRefreshToken(refreshToken)`: runs the DELETE; a failure is logged and not thrown
again, so the function always returns normally. -/
def removeRefreshToken (cx : Ctx) (refreshToken : String) (db : Db) : Db :=
  match executeQuery cx (deleteRefreshToken refreshToken) db with
  | (none, db1) => db1
  | (some _, db1) => db1

/-! ## Auth gate (`middleware/auth.js`) -/

/-- JavaScript `s.split(' ')` on the characters of a string. -/
def splitSpace : List Char → List (List Char)
  | [] => [[]]
  | c :: cs =>
    if c = ' ' then [] :: splitSpace cs
    else
      match splitSpace cs with
      | [] => [[c]]
      | w :: ws => (c :: w) :: ws

/-- The value of `authHeader && authHeader.split(' ')[1]` when it is truthy; `none` when
`!token` holds (header absent or empty, no second segment, or an empty second segment). -/
def bearerToken (authHeader : Option String) : Option String :=
  match authHeader with
  | none => none
  | some h =>
    if h = "" then none
    else
      match splitSpace h.data with
      | _ :: t :: _ => if t = [] then none else some (String.mk t)
      | _ => none

/-- The request and response objects as a middleware chain sees them. -/
structure Exchange where
  /-- The header `req.headers['authorization']`. -/
  authorization : Option String
  /-- The member `req.user`; `none` is `undefined`. -/
  user : Option Obj
  /-- The `res.status(..).json(..)` calls made so far, in order. -/
  responses : List Response
  /-- How many times control was passed onward to the next handler of the route. -/
  next : Nat
  deriving DecidableEq, Repr

/-- A request as it enters the first middleware of a route. -/
def Exchange.incoming (authorization : Option String) : Exchange :=
  { authorization := authorization, user := none, responses := [], next := 0 }

/-- The call `res.status(..).json(..)`. -/
def Exchange.send (x : Exchange) (r : Response) : Exchange :=
  { x with responses := x.responses ++ [r] }

/-- The `next` the router hands to a middleware: control passes onward. -/
def passOn (x : Exchange) : Exchange :=
  { x with next := x.next + 1 }

/-- The callback `() => {}` that `requireAdmin` hands to `authenticateToken`. -/
def noop (x : Exchange) : Exchange := x

/-- Models `authenticateToken(req, res, next)`. -/
def authenticateToken (env : Env) (cx : Ctx) (next : Exchange → Exchange) (x : Exchange)
    (db : Db) : Exchange × Db :=
  match bearerToken x.authorization with
  | none => (x.send (failure 401 "Access token required"), db)
  | some token =>
    match verifyToken env cx.now token with
    | Except.error _ => (x.send (failure 403 "Invalid or expired token"), db)
    | Except.ok decoded =>
      match executeQuery cx (selectUsersById decoded.userId) db with
      | (none, db1) => (x.send (failure 403 "Invalid or expired token"), db1)
      | (some user, db1) =>
        match user with
        | [] => (x.send (failure 401 "User not found"), db1)
        | u :: _ => (next { x with user := some (u.select profileCols) }, db1)

/-- Rows of `SELECT is_admin FROM users WHERE id = ?` for the JavaScript value bound to the
parameter. The statement fails when the table has no column `is_admin`, as is the case with the
table `createTables` creates; binding `undefined` makes the driver throw. -/
def selectAdminById (hasAdminColumn : Bool) (id : Option Val) (s : Store) :
    Option (List UserRow × Store) :=
  if hasAdminColumn = false then none
  else
    match id with
    | none => none
    | some v => some (s.users.filter (fun u => Val.num u.id == v), s)

/-- Models `requireAdmin(req, res, next)`. Reading `req.user.id` while `req.user` is undefined
throws a TypeError, which the `catch` answers with 403. -/
def requireAdmin (env : Env) (cx : Ctx) (next : Exchange → Exchange) (x : Exchange) (db : Db) :
    Exchange × Db :=
  match authenticateToken env cx noop x db with
  | (x1, db1) =>
    match x1.user with
    | none => (x1.send (failure 403 "Admin authentication failed"), db1)
    | some reqUser =>
      match executeQuery cx (selectAdminById env.hasAdminColumn (reqUser.get "id")) db1 with
      | (none, db2) => (x1.send (failure 403 "Admin authentication failed"), db2)
      | (some user, db2) =>
        match user with
        | [] => (x1.send (failure 403 "Admin access required"), db2)
        | u :: _ =>
          if u.is_admin = some true then (next x1, db2)
          else (x1.send (failure 403 "Admin access required"), db2)

/-! ## Session flows (`routes/auth.js`) -/

/-- The body of `POST /register` after validation. -/
structure RegisterBody where
  email : String
  password : String
  firstName : String
  lastName : String
  phoneNumber : Option String

/-- Models `phoneNumber || null`. -/
def orNull (phoneNumber : Option String) : Option String :=
  match phoneNumber with
  | none => none
  | some p => if p = "" then none else some p

/-- The handler of `POST /register`. -/
def register (env : Env) (cx : Ctx) (body : RegisterBody) (db : Db) : Response × Db :=
  match executeQuery cx (selectUsersByEmail body.email) db with
  | (none, db1) => (failure 500 "Internal server error during registration", db1)
  | (some existingUser, db1) =>
    if existingUser.length > 0 then
      (failure 409 "User with this email already exists", db1)
    else
      let hashedPassword := env.bcryptHash body.password (saltRounds env) cx.salt
      let emailVerificationToken := cx.randomHex
      match executeQuery cx (insertUser cx.now body.email hashedPassword body.firstName
          body.lastName (orNull body.phoneNumber) emailVerificationToken) db1 with
      | (none, db2) => (failure 500 "Internal server error during registration", db2)
      | (some userId, db2) =>
        let accessToken := generateToken env cx.now userId body.email
        let refreshToken := generateRefreshToken env cx.now userId body.email
        match storeRefreshToken env cx userId refreshToken db2 with
        | (none, db3) => (failure 500 "Internal server error during registration", db3)
        | (some _, db3) =>
          match executeQuery cx (selectUsersById userId) db3 with
          | (none, db4) => (failure 500 "Internal server error during registration", db4)
          | (some userData, db4) =>
            ({ status := 201,
               body := {
                 success := true, message := some "User registered successfully",
                 data := some {
                   user := userData.head?.map (UserRow.select registerCols),
                   accessToken := some accessToken,
                   refreshToken := some refreshToken } } }, db4)

/-- The body of `POST /login` after validation. -/
structure LoginBody where
  email : String
  password : String

/-- The handler of `POST /login`. -/
def login (env : Env) (cx : Ctx) (body : LoginBody) (db : Db) : Response × Db :=
  match executeQuery cx (selectUsersByEmail body.email) db with
  | (none, db1) => (failure 500 "Internal server error during login", db1)
  | (some users, db1) =>
    match users with
    | [] => (failure 401 "Invalid email or password", db1)
    | user :: _ =>
      if env.bcryptCompare body.password user.password = false then
        (failure 401 "Invalid email or password", db1)
      else
        match executeQuery cx
            (updateUsersById cx.now user.id (fun u => { u with last_login_at := some cx.now }))
            db1 with
        | (none, db2) => (failure 500 "Internal server error during login", db2)
        | (some _, db2) =>
          let accessToken := generateToken env cx.now user.id user.email
          let refreshToken := generateRefreshToken env cx.now user.id user.email
          match storeRefreshToken env cx user.id refreshToken db2 with
          | (none, db3) => (failure 500 "Internal server error during login", db3)
          | (some _, db3) =>
            ({ status := 200,
               body := {
                 success := true, message := some "Login successful",
                 data := some {
                   user := some ((user.select loginCols).delete "password"),
                   accessToken := some accessToken,
                   refreshToken := some refreshToken } } }, db3)

/-- The handler of `POST /refresh-token`; its `catch` answers every failure with 401. -/
def refreshToken (env : Env) (cx : Ctx) (token : String) (db : Db) : Response × Db :=
  match validateRefreshToken env cx token db with
  | (Except.error _, db1) => (failure 401 "Invalid or expired refresh token", db1)
  | (Except.ok decoded, db1) =>
    match executeQuery cx (selectUsersById decoded.userId) db1 with
    | (none, db2) => (failure 401 "Invalid or expired refresh token", db2)
    | (some users, db2) =>
      match users with
      | [] => (failure 401 "User not found", db2)
      | user :: _ =>
        ({ status := 200,
           body := {
             success := true, message := some "Token refreshed successfully",
             data := some {
               user := some (user.select profileCols),
               accessToken := some (generateToken env cx.now user.id user.email),
               refreshToken := none } } }, db2)

/-- The handler of `POST /logout`, run after `authenticateToken`. The body member `refreshToken`
is optional and is used when truthy. Nothing inside the `try` can throw (`removeRefreshToken`
swallows its failure), so the 500 answer of the `catch` has no path to it. -/
def logout (cx : Ctx) (token : Option String) (db : Db) : Response × Db :=
  let db1 :=
    match token with
    | none => db
    | some t => if t = "" then db else removeRefreshToken cx t db
  ({ status := 200,
     body := { success := true, message := some "Logout successful", data := none } }, db1)

/-- The message both branches of the forgot-password handler answer with. -/
def resetLinkSent : String :=
  "If an account with that email exists, a password reset link has been sent"

/-- The handler of `POST /forgot-password`. The expiry is what `setHours(getHours() + 1)` gives
on the local wall clock. -/
def forgotPassword (env : Env) (cx : Ctx) (email : String) (db : Db) : Response × Db :=
  match executeQuery cx (selectUsersByEmail email) db with
  | (none, db1) => (failure 500 "Internal server error", db1)
  | (some users, db1) =>
    match users with
    | [] =>
      ({ status := 200,
         body := { success := true, message := some resetLinkSent, data := none } }, db1)
    | user :: _ =>
      let resetToken := cx.randomHex
      let resetExpires := env.addLocalHours cx.now 1
      match executeQuery cx
          (updateUsersById cx.now user.id (fun u =>
            { u with password_reset_token := some resetToken,
                     password_reset_expires := some resetExpires }))
          db1 with
      | (none, db2) => (failure 500 "Internal server error", db2)
      | (some _, db2) =>
        ({ status := 200,
           body := { success := true, message := some resetLinkSent, data := none } }, db2)

/-- The handler of `POST /reset-password`. -/
def resetPassword (env : Env) (cx : Ctx) (token : String) (password : String) (db : Db) :
    Response × Db :=
  match executeQuery cx (selectUsersByResetToken cx.now token) db with
  | (none, db1) => (failure 500 "Internal server error during password reset", db1)
  | (some users, db1) =>
    match users with
    | [] => (failure 400 "Invalid or expired reset token", db1)
    | user :: _ =>
      let hashedPassword := env.bcryptHash password (saltRounds env) cx.salt
      match executeQuery cx
          (updateUsersById cx.now user.id (fun u =>
            { u with password := hashedPassword, password_reset_token := none,
                     password_reset_expires := none, updated_at := cx.now }))
          db1 with
      | (none, db2) => (failure 500 "Internal server error during password reset", db2)
      | (some _, db2) =>
        ({ status := 200,
           body := { success := true, message := some "Password reset successful",
                     data := none } }, db2)

/-! ## Routes and request sequences -/

/-- A database connection at the start of a request. -/
def Db.fresh (s : Store) : Db := { store := s, q := 0 }

/-- A route `router.METHOD(path, authenticateToken, handler)`: the handler runs, and its
response is sent, only when the gate passed control onward. -/
def gated (env : Env) (cx : Ctx) (handler : Exchange → Db → Response × Db)
    (authorization : Option String) (s : Store) : Exchange × Db :=
  match authenticateToken env cx passOn (Exchange.incoming authorization) (Db.fresh s) with
  | (x1, db1) =>
    if x1.next = 0 then (x1, db1)
    else
      match handler x1 db1 with
      | (r, db2) => (x1.send r, db2)

/-- The route `POST /logout`. -/
def logoutRoute (env : Env) (cx : Ctx) (authorization : Option String) (token : Option String)
    (s : Store) : Exchange × Db :=
  gated env cx (fun _ db => logout cx token db) authorization s

/-- A sequence of `POST /refresh-token` requests with the same token, one per context, served one
after the other: the responses in order and the store left behind. -/
def refreshMany (env : Env) (token : String) : List Ctx → Store → List Response × Store
  | [], s => ([], s)
  | cx :: rest, s =>
    match refreshToken env cx token (Db.fresh s) with
    | (r, db1) =>
      match refreshMany env token rest db1.store with
      | (rs, s2) => (r :: rs, s2)

/-- The number of user rows with the given email. -/
def countEmail (s : Store) (email : String) : Nat :=
  (s.users.filter (fun u => u.email == email)).length

/-- A fault schedule under which no query throws. -/
def noFaults : Nat → Bool := fun _ => false

/-- The `id` member of the user object of a response, when there is one. -/
def Response.userId (r : Response) : Option Val :=
  match r.body.data with
  | none => none
  | some d =>
    match d.user with
    | none => none
    | some u => u.get "id"

/-! ## A concrete deployment for the worked examples -/

/-- A toy token and hashing library: two users can hold tokens, a hash is the tagged password. -/
def demoEnv : Env :=
  { jwtSign := fun userId _ expiresIn _ =>
      if expiresIn = 900 then (if userId = 1 then "access-1" else "access-2")
      else (if userId = 1 then "refresh-1" else "refresh-2")
    jwtVerify := fun token now =>
      if token = "access-1" ∨ token = "refresh-1" then
        (if now < 5000 then
          some { userId := 1, email := "alice@example.com", iat := 0, exp := 5000 }
        else none)
      else if token = "access-9" then
        (if now < 5000 then
          some { userId := 9, email := "ghost@example.com", iat := 0, exp := 5000 }
        else none)
      else none
    bcryptHash := fun password _ _ => "hashed:" ++ password
    bcryptCompare := fun password hash => hash == "hashed:" ++ password
    JWT_EXPIRES_IN := 900
    JWT_REFRESH_EXPIRES_IN := 604800
    BCRYPT_SALT_ROUNDS := none
    addLocalHours := fun now hours => now + 3600 * hours
    addLocalDays := fun now days => now + 86400 * days
    hasAdminColumn := false }

/-- A stored user whose password is `Secret1`. -/
def alice : UserRow :=
  { id := 1, email := "alice@example.com", password := "hashed:Secret1",
    first_name := "Alice", last_name := "Liddell", phone_number := none,
    profile_image_url := none, is_email_verified := false,
    email_verification_token := some "v1",
    password_reset_token := some "reset-1", password_reset_expires := some 4000,
    created_at := 0, updated_at := 0, last_login_at := none, is_admin := none }

/-- A store with one user and one live refresh token of that user. -/
def demoStore : Store :=
  { users := [alice],
    refresh_tokens :=
      [{ id := 1, user_id := 1, token := "refresh-1", expires_at := 5000, created_at := 0 }],
    nextUserId := 2, nextRefreshId := 2 }

/-- A request context at time 100 during which no query fails. -/
def demoCtx : Ctx := { now := 100, faults := noFaults, salt := 7, randomHex := "c0ffee" }

/-- A request context at time 100 during which the second query fails. -/
def faultySecondQuery : Ctx :=
  { now := 100, faults := fun k => k == 1, salt := 7, randomHex := "c0ffee" }

/-- A registration body with the email of the stored user. -/
def aliceAgain : RegisterBody :=
  { email := "alice@example.com", password := "Other2", firstName := "Al", lastName := "Ice",
    phoneNumber := none }

/-- A registration body with an email that is not stored. -/
def bob : RegisterBody :=
  { email := "bob@example.com", password := "Secret2", firstName := "Bob", lastName := "Builder",
    phoneNumber := none }

/-- A request context at time 200 during which no query fails. -/
def laterCtx : Ctx := { now := 200, faults := noFaults, salt := 11, randomHex := "decaf" }

/-! ## Remaining middleware and handlers -/

/-- JavaScript truthiness of a member read from an object; `none` is `undefined`. -/
def truthy : Option Val → Bool
  | none => false
  | some Val.null => false
  | some (Val.num n) => !(n == 0)
  | some (Val.str s) => !(s == "")
  | some (Val.bool b) => b

/-- Models `optionalAuth(req, res, next)`: every failure inside the `try` ends in the `catch`,
which calls `next()`. -/
def optionalAuth (env : Env) (cx : Ctx) (next : Exchange → Exchange) (x : Exchange) (db : Db) :
    Exchange × Db :=
  match bearerToken x.authorization with
  | none => (next x, db)
  | some token =>
    match verifyToken env cx.now token with
    | Except.error _ => (next x, db)
    | Except.ok decoded =>
      match executeQuery cx (selectUsersById decoded.userId) db with
      | (none, db1) => (next x, db1)
      | (some user, db1) =>
        match user with
        | [] => (next x, db1)
        | u :: _ => (next { x with user := some (u.select profileCols) }, db1)

/-- Models `requireEmailVerification(req, res, next)`. The function has no `try`: reading
`req.user.is_email_verified` while `req.user` is undefined throws a TypeError out of it. -/
def requireEmailVerification (next : Exchange → Exchange) (x : Exchange) :
    Except String Exchange :=
  match x.user with
  | none => Except.error "TypeError"
  | some reqUser =>
    if truthy (reqUser.get "is_email_verified") = false then
      Except.ok (x.send (failure 403 "Email verification required"))
    else Except.ok (next x)

/-- The statement `DELETE FROM refresh_tokens WHERE expires_at <= NOW()`. -/
def deleteExpiredTokens (now : Nat) (s : Store) : Option (Unit × Store) :=
  some ((),
    { s with
      refresh_tokens := s.refresh_tokens.filter (fun r => decide (now < r.expires_at)) })

/-- Models `cleanExpiredTokens()`: a failure is logged and not thrown again. -/
def cleanExpiredTokens (cx : Ctx) (db : Db) : Db :=
  match executeQuery cx (deleteExpiredTokens cx.now) db with
  | (none, db1) => db1
  | (some _, db1) => db1

/-- Rows of `SELECT ... FROM users WHERE id = ?` for the JavaScript value bound to the parameter;
binding `undefined` makes the driver throw. -/
def selectUsersByIdValue (id : Option Val) (s : Store) : Option (List UserRow × Store) :=
  match id with
  | none => none
  | some v => some (s.users.filter (fun u => Val.num u.id == v), s)

/-- An UPDATE of the rows whose id equals the JavaScript value bound to the parameter; a row the
assignment changes also gets `updated_at = now`. Binding `undefined` makes the driver throw. -/
def updateUsersByIdValue (now : Nat) (id : Option Val) (assign : UserRow → UserRow)
    (s : Store) : Option (Unit × Store) :=
  match id with
  | none => none
  | some v =>
    some ((),
      { s with
        users := s.users.map (fun u =>
          if Val.num u.id == v then
            (if assign u = u then u else { assign u with updated_at := now })
          else u) })

/-- The column list of the SELECT of `GET /profile`. -/
def getProfileCols : List String := profileCols ++ ["created_at", "last_login_at"]

/-- The column list of the final SELECT of `PUT /profile`. -/
def updateProfileCols : List String := profileCols ++ ["created_at", "updated_at"]

/-- The handler of `GET /profile`, run after `authenticateToken`. -/
def getProfile (cx : Ctx) (x : Exchange) (db : Db) : Response × Db :=
  match x.user with
  | none => (failure 500 "Internal server error", db)
  | some reqUser =>
    match executeQuery cx (selectUsersByIdValue (reqUser.get "id")) db with
    | (none, db1) => (failure 500 "Internal server error", db1)
    | (some user, db1) =>
      match user with
      | [] => (failure 404 "User not found", db1)
      | u :: _ =>
        ({ status := 200,
           body := {
             success := true, message := none,
             data := some {
               user := some (u.select getProfileCols),
               accessToken := none, refreshToken := none } } }, db1)

/-- The body of `PUT /profile` after validation; `none` is `undefined`. -/
structure UpdateProfileBody where
  firstName : Option String
  lastName : Option String
  phoneNumber : Option String

/-- The assignments `first_name = ?`, `last_name = ?`, `phone_number = ?` for the members of the
body that are defined, followed by `updated_at = NOW()`. -/
def profileAssign (now : Nat) (body : UpdateProfileBody) (u : UserRow) : UserRow :=
  { u with
    first_name := (match body.firstName with | none => u.first_name | some v => v),
    last_name := (match body.lastName with | none => u.last_name | some v => v),
    phone_number := (match body.phoneNumber with | none => u.phone_number | some v => some v),
    updated_at := now }

/-- The handler of `PUT /profile`, run after `authenticateToken` and validation. -/
def updateProfile (cx : Ctx) (body : UpdateProfileBody) (x : Exchange) (db : Db) :
    Response × Db :=
  match x.user with
  | none => (failure 500 "Internal server error during profile update", db)
  | some reqUser =>
    if body.firstName = none ∧ body.lastName = none ∧ body.phoneNumber = none then
      (failure 400 "No fields to update", db)
    else
      match executeQuery cx
          (updateUsersByIdValue cx.now (reqUser.get "id") (profileAssign cx.now body)) db with
      | (none, db1) => (failure 500 "Internal server error during profile update", db1)
      | (some _, db1) =>
        match executeQuery cx (selectUsersByIdValue (reqUser.get "id")) db1 with
        | (none, db2) => (failure 500 "Internal server error during profile update", db2)
        | (some updatedUser, db2) =>
          ({ status := 200,
             body := {
               success := true, message := some "Profile updated successfully",
               data := some {
                 user := updatedUser.head?.map (UserRow.select updateProfileCols),
                 accessToken := none, refreshToken := none } } }, db2)

/-- The body of `PUT /change-password` after validation. -/
structure ChangePasswordBody where
  currentPassword : String
  newPassword : String

/-- The handler of `PUT /change-password`, run after `authenticateToken` and validation. -/
def changePassword (env : Env) (cx : Ctx) (body : ChangePasswordBody) (x : Exchange)
    (db : Db) : Response × Db :=
  match x.user with
  | none => (failure 500 "Internal server error during password change", db)
  | some reqUser =>
    match executeQuery cx (selectUsersByIdValue (reqUser.get "id")) db with
    | (none, db1) => (failure 500 "Internal server error during password change", db1)
    | (some users, db1) =>
      match users with
      | [] => (failure 404 "User not found", db1)
      | user :: _ =>
        if env.bcryptCompare body.currentPassword user.password = false then
          (failure 400 "Current password is incorrect", db1)
        else
          let hashedNewPassword := env.bcryptHash body.newPassword (saltRounds env) cx.salt
          match executeQuery cx
              (updateUsersByIdValue cx.now (reqUser.get "id") (fun u =>
                { u with password := hashedNewPassword, updated_at := cx.now })) db1 with
          | (none, db2) => (failure 500 "Internal server error during password change", db2)
          | (some _, db2) =>
            ({ status := 200,
               body := { success := true, message := some "Password changed successfully",
                         data := none } }, db2)

/-- A request to one of the endpoints of the session flows, as it reaches the router. -/
inductive Request where
  | register (body : RegisterBody) : Request
  | login (body : LoginBody) : Request
  | refreshToken (token : String) : Request
  | logout (authorization : Option String) (token : Option String) : Request
  | getProfile (authorization : Option String) : Request
  | updateProfile (authorization : Option String) (body : UpdateProfileBody) : Request
  | forgotPassword (email : String) : Request
  | resetPassword (token : String) (password : String) : Request
  | changePassword (authorization : Option String) (body : ChangePasswordBody) : Request

/-- A response of a handler that has no gate, as the list of responses of the request. -/
def single (r : Response × Db) : List Response × Db := ([r.1], r.2)

/-- The responses and the database left behind by a gated route. -/
def routed (r : Exchange × Db) : List Response × Db := (r.1.responses, r.2)

/-- Serving one request on a store: the responses sent and the database left behind. -/
def serve (env : Env) (cx : Ctx) (req : Request) (s : Store) : List Response × Db :=
  match req with
  | Request.register body => single (register env cx body (Db.fresh s))
  | Request.login body => single (login env cx body (Db.fresh s))
  | Request.refreshToken token => single (refreshToken env cx token (Db.fresh s))
  | Request.logout authorization token => routed (logoutRoute env cx authorization token s)
  | Request.getProfile authorization =>
    routed (gated env cx (fun x db => getProfile cx x db) authorization s)
  | Request.updateProfile authorization body =>
    routed (gated env cx (fun x db => updateProfile cx body x db) authorization s)
  | Request.forgotPassword email => single (forgotPassword env cx email (Db.fresh s))
  | Request.resetPassword token password =>
    single (resetPassword env cx token password (Db.fresh s))
  | Request.changePassword authorization body =>
    routed (gated env cx (fun x db => changePassword env cx body x db) authorization s)

/-- The store left behind by a sequence of requests, each with its own context. -/
def serveAll (env : Env) : List (Ctx × Request) → Store → Store
  | [], s => s
  | (cx, req) :: rest, s => serveAll env rest (serve env cx req s).2.store

/-- The reset token of a row is absent exactly when its expiry is absent. -/
def Paired (s : Store) : Prop :=
  ∀ u ∈ s.users, (u.password_reset_token = none ↔ u.password_reset_expires = none)

/-- The schedule fails one of the queries numbered from `a` up to, not including, `b`: with `a`
the number of queries issued before and `b` the number issued after, a query issued in between
hit a storage fault. -/
def faultBetween (cx : Ctx) (a b : Nat) : Prop :=
  ∃ k, a ≤ k ∧ k < b ∧ cx.faults k = true

/-- A store with no rows. -/
def emptyStore : Store :=
  { users := [], refresh_tokens := [], nextUserId := 1, nextRefreshId := 1 }

/-- A request context at time 100 during which the first query fails. -/
def faultyFirstQuery : Ctx :=
  { now := 100, faults := fun k => k == 0, salt := 7, randomHex := "c0ffee" }

/-- A request context at time 9000 during which no query fails. -/
def muchLaterCtx : Ctx := { now := 9000, faults := noFaults, salt := 13, randomHex := "beef" }

/-- The request as the handler of a gated route sees it after the gate attached the row `u`. -/
def Exchange.authenticated (authorization : Option String) (u : UserRow) : Exchange :=
  { authorization := authorization, user := some (u.select profileCols), responses := [],
    next := 1 }

/-- What the handlers of the session flows have in common, for a handler run from `db` with result
`res`: pairing of reset token and expiry is kept; if a query it issued hit a storage fault, its
response is `onFault`; and the user object of its response, if any, has no `password` member. -/
def Effect (cx : Ctx) (onFault : Response) (db : Db) (res : Response × Db) : Prop :=
  (Paired db.store → Paired res.2.store) ∧
  (faultBetween cx db.q res.2.q → res.1 = onFault) ∧
  (∀ d o, res.1.body.data = some d → d.user = some o → o.has "password" = false)

/-- The answer of a successful logout. -/
def logoutSuccessful : Response :=
  { status := 200,
    body := { success := true, message := some "Logout successful", data := none } }

/-- A second stored user, whose reset token is the one of `alice`: column
`password_reset_token` carries no UNIQUE constraint. -/
def carol : UserRow :=
  { id := 2, email := "carol@example.com", password := "hashed:Secret5",
    first_name := "Carol", last_name := "Danvers", phone_number := none,
    profile_image_url := none, is_email_verified := false,
    email_verification_token := some "v2",
    password_reset_token := some "reset-1", password_reset_expires := some 4000,
    created_at := 0, updated_at := 0, last_login_at := none, is_admin := none }

/-- A store in which two users hold the same live reset token. -/
def sharedTokenStore : Store :=
  { users := [alice, carol], refresh_tokens := [], nextUserId := 3, nextRefreshId := 1 }

/-! ## Theorems -/

/-- A query that the schedule lets through runs its statement. -/
theorem executeQuery_ok {α : Type} (cx : Ctx) (stmt : Store → Option (α × Store)) (db : Db)
    (a : α) (s : Store) (hq : cx.faults db.q = false) (hs : stmt db.store = some (a, s)) :
    executeQuery cx stmt db = (some a, { store := s, q := db.q + 1 }) := by
  simp [executeQuery, hq, hs]

/-- A stored email yields a non-empty result of the lookup by email. -/
theorem filter_email_pos (users : List UserRow) (email : String)
    (hex : ∃ u ∈ users, u.email = email) :
    0 < (users.filter (fun u => u.email == email)).length := by
  obtain ⟨u, hu, he⟩ := hex
  apply List.length_pos_of_mem (a := u)
  simp [List.mem_filter, hu, he]

/-- C1: when the email of a registration request already belongs to a stored user (and the lookup
query is served), the register handler answers 409 and leaves the store, hence both the users table
and the refresh-token ledger, as it was; a count of 1 rows with that email stays 1. -/
theorem register_existing_email_conflict (env : Env) (cx : Ctx) (body : RegisterBody) (db : Db)
    (hq : cx.faults db.q = false)
    (hex : ∃ u ∈ db.store.users, u.email = body.email) :
    (register env cx body db).1 = failure 409 "User with this email already exists" ∧
    (register env cx body db).2.store = db.store ∧
    (countEmail db.store body.email = 1 →
      countEmail (register env cx body db).2.store body.email = 1) := by
  have hpos := filter_email_pos db.store.users body.email hex
  simp [register, executeQuery, hq, selectUsersByEmail, hpos]

/-- Witness of C1 on the demo store: registering the stored email again. -/
theorem register_existing_email_conflict_witness :
    (demoCtx.faults (Db.fresh demoStore).q = false ∧
      ∃ u ∈ (Db.fresh demoStore).store.users, u.email = aliceAgain.email) ∧
    (register demoEnv demoCtx aliceAgain (Db.fresh demoStore)).1 =
      failure 409 "User with this email already exists" ∧
    (register demoEnv demoCtx aliceAgain (Db.fresh demoStore)).2.store = demoStore ∧
    (countEmail demoStore aliceAgain.email = 1 →
      countEmail (register demoEnv demoCtx aliceAgain (Db.fresh demoStore)).2.store
        aliceAgain.email = 1) :=
  ⟨⟨rfl, alice, by decide, rfl⟩,
    register_existing_email_conflict demoEnv demoCtx aliceAgain (Db.fresh demoStore) rfl
      ⟨alice, by decide, rfl⟩⟩

/-- A query either throws, leaving the store as it was, or runs its statement. -/
theorem executeQuery_cases {α : Type} (cx : Ctx) (stmt : Store → Option (α × Store)) (db : Db) :
    executeQuery cx stmt db = (none, { store := db.store, q := db.q + 1 }) ∨
    ∃ a s, cx.faults db.q = false ∧ stmt db.store = some (a, s) ∧
      executeQuery cx stmt db = (some a, { store := s, q := db.q + 1 }) := by
  unfold executeQuery
  by_cases hq : cx.faults db.q = true
  · left; simp [hq]
  · simp only [Bool.not_eq_true] at hq
    cases hs : stmt db.store with
    | none => left; simp [hq]
    | some p => right; exact ⟨p.1, p.2, hq, rfl, by simp [hq]⟩

/-- A 201 answer of the register handler means that every query was served, that no stored row
had the email or the next id, and that exactly the new row was appended; the user object of the
answer carries the new id. -/
theorem register_created (env : Env) (cx : Ctx) (body : RegisterBody) (db : Db)
    (h : (register env cx body db).1.status = 201) :
    ∃ row : UserRow,
      row.id = db.store.nextUserId ∧ row.email = body.email ∧
      row.password = env.bcryptHash body.password (saltRounds env) cx.salt ∧
      (register env cx body db).2.store.users = db.store.users ++ [row] ∧
      (∀ u ∈ db.store.users, u.email ≠ body.email ∧ u.id ≠ db.store.nextUserId) ∧
      (register env cx body db).1.userId = some (Val.num db.store.nextUserId) := by
  unfold register at h ⊢
  rcases executeQuery_cases cx (selectUsersByEmail body.email) db with e1 | ⟨a1, s1, -, hs1, e1⟩
  · rw [e1] at h; simp [failure] at h
  rw [e1] at h ⊢
  simp only [selectUsersByEmail, Option.some.injEq, Prod.mk.injEq] at hs1
  obtain ⟨rfl, rfl⟩ := hs1
  dsimp only at h ⊢
  split at h
  · simp [failure] at h
  rename_i hlen
  rw [if_neg hlen]
  generalize hdb1 : ({ store := db.store, q := db.q + 1 } : Db) = db1 at h ⊢
  have hst1 : db1.store = db.store := by rw [← hdb1]
  rcases executeQuery_cases cx (insertUser cx.now body.email
      (env.bcryptHash body.password (saltRounds env) cx.salt) body.firstName body.lastName
      (orNull body.phoneNumber) cx.randomHex) db1 with e2 | ⟨a2, s2, -, hs2, e2⟩
  · rw [e2] at h; simp [failure] at h
  rw [e2] at h ⊢
  dsimp only at h ⊢
  rw [hst1] at hs2
  unfold insertUser at hs2
  split at hs2
  · exact absurd hs2 (by simp)
  rename_i hdup
  simp only [Option.some.injEq, Prod.mk.injEq] at hs2
  obtain ⟨rfl, rfl⟩ := hs2
  unfold storeRefreshToken at h ⊢
  generalize hdb2 : ({ store := _, q := db1.q + 1 } : Db) = db2 at h ⊢
  rcases executeQuery_cases cx (insertRefreshToken cx.now db.store.nextUserId
      (generateRefreshToken env cx.now db.store.nextUserId body.email) (env.addLocalDays cx.now 30)) db2
    with e3 | ⟨a3, s3, -, hs3, e3⟩
  · rw [e3] at h; simp [failure] at h
  rw [e3] at h ⊢
  dsimp only at h ⊢
  unfold insertRefreshToken at hs3
  split at hs3
  swap
  · exact absurd hs3 (by simp)
  simp only [Option.some.injEq, Prod.mk.injEq] at hs3
  obtain ⟨-, rfl⟩ := hs3
  generalize hdb3 : ({ store := _, q := db2.q + 1 } : Db) = db3 at h ⊢
  rcases executeQuery_cases cx (selectUsersById db.store.nextUserId) db3
    with e4 | ⟨a4, s4, -, hs4, e4⟩
  · rw [e4] at h; simp [failure] at h
  rw [e4]
  simp only [selectUsersById, Option.some.injEq, Prod.mk.injEq] at hs4
  obtain ⟨rfl, rfl⟩ := hs4
  dsimp only
  have hold : ∀ u ∈ db.store.users, u.email ≠ body.email ∧ u.id ≠ db.store.nextUserId := by
    intro u hu
    simp only [List.any_eq_true, not_exists, not_and, Bool.or_eq_true, beq_iff_eq, not_or] at hdup
    exact hdup u hu
  have hfil : db.store.users.filter (fun u => u.id == db.store.nextUserId) = [] := by
    rw [List.filter_eq_nil_iff]
    intro u hu
    simpa using (hold u hu).2
  refine ⟨newUser cx.now db.store.nextUserId body.email
    (env.bcryptHash body.password (saltRounds env) cx.salt) body.firstName body.lastName
    (orNull body.phoneNumber) cx.randomHex, rfl, rfl, rfl, ?_, hold, ?_⟩
  · rw [← hdb3, ← hdb2]
  · rw [← hdb3, ← hdb2]
    simp [Response.userId, List.filter_append, hfil, UserRow.select, registerCols, profileCols,
      Obj.get, UserRow.col, newUser]


/-- An UPDATE that does not assign the id keeps the set of ids. -/
theorem updateUsersById_keeps_ids (now id : Nat) (assign : UserRow → UserRow)
    (hassign : ∀ u, (assign u).id = u.id) (s s2 : Store) (a : Unit)
    (h : updateUsersById now id assign s = some (a, s2)) (i : Nat) :
    s2.users.any (fun u => u.id == i) = s.users.any (fun u => u.id == i) := by
  simp only [updateUsersById, Option.some.injEq, Prod.mk.injEq] at h
  obtain ⟨-, rfl⟩ := h
  simp only [List.any_map]
  congr 1
  funext u
  simp only [Function.comp]
  split
  · split
    · rfl
    · simp [hassign]
  · rfl

/-- Login with the email of the last row, when no earlier row has that email and the password
matches, answers 200 with the id of that row. -/
theorem login_after_insert (env : Env) (cx : Ctx) (body : LoginBody) (s : Store)
    (old : List UserRow) (row : UserRow)
    (husers : s.users = old ++ [row])
    (hold : ∀ u ∈ old, u.email ≠ body.email)
    (hemail : row.email = body.email)
    (hpw : env.bcryptCompare body.password row.password = true)
    (hnf : ∀ k, cx.faults k = false) :
    (login env cx body (Db.fresh s)).1.status = 200 ∧
    (login env cx body (Db.fresh s)).1.userId = some (Val.num row.id) := by
  have hfil : s.users.filter (fun u => u.email == body.email) = [row] := by
    rw [husers, List.filter_append]
    have h1 : old.filter (fun u => u.email == body.email) = [] := by
      rw [List.filter_eq_nil_iff]
      intro u hu
      simpa using hold u hu
    simp [h1, hemail]
  have hany : s.users.any (fun u => u.id == row.id) = true := by
    rw [husers]; simp
  obtain ⟨s2, hs2⟩ : ∃ s2, updateUsersById cx.now row.id
      (fun u => { u with last_login_at := some cx.now }) s = some ((), s2) := ⟨_, rfl⟩
  have hany2 : s2.users.any (fun u => u.id == row.id) = true := by
    rw [updateUsersById_keeps_ids cx.now row.id
      (fun u => { u with last_login_at := some cx.now }) (fun _ => rfl) s s2 () hs2, hany]
  obtain ⟨s3, hs3⟩ : ∃ s3, insertRefreshToken cx.now row.id
      (generateRefreshToken env cx.now row.id row.email) (env.addLocalDays cx.now 30) s2
        = some ((), s3) := by
    unfold insertRefreshToken
    rw [if_pos hany2]
    exact ⟨_, rfl⟩
  unfold login
  rw [executeQuery_ok cx (selectUsersByEmail body.email) (Db.fresh s) [row] s (hnf _)
    (by simp [selectUsersByEmail, Db.fresh, hfil])]
  dsimp only
  rw [if_neg (by simp [hpw])]
  rw [executeQuery_ok cx _ _ () s2 (hnf _) hs2]
  dsimp only
  unfold storeRefreshToken
  rw [executeQuery_ok cx _ _ () s3 (hnf _) hs3]
  simp [Response.userId, UserRow.select, loginCols, Obj.delete, Obj.get, UserRow.col]


/-- C2: if the register handler answers 201 for a body, then (given a hash for which comparing a
password with its own hash succeeds, and no storage fault during the login) a login with the same
email and password on the store left by the registration answers 200, and the user id of the login
answer equals the user id of the registration answer, which is the id the insert assigned. -/
theorem register_then_login (env : Env) (cx1 cx2 : Ctx) (body : RegisterBody) (s : Store)
    (hcmp : ∀ p rounds salt, env.bcryptCompare p (env.bcryptHash p rounds salt) = true)
    (hreg : (register env cx1 body (Db.fresh s)).1.status = 201)
    (hnf : ∀ k, cx2.faults k = false) :
    (login env cx2 { email := body.email, password := body.password }
        (Db.fresh (register env cx1 body (Db.fresh s)).2.store)).1.status = 200 ∧
    (login env cx2 { email := body.email, password := body.password }
        (Db.fresh (register env cx1 body (Db.fresh s)).2.store)).1.userId =
      (register env cx1 body (Db.fresh s)).1.userId ∧
    (register env cx1 body (Db.fresh s)).1.userId = some (Val.num s.nextUserId) := by
  obtain ⟨row, hid, hemail, hpw, husers, hold, huid⟩ :=
    register_created env cx1 body (Db.fresh s) hreg
  have hlog := login_after_insert env cx2 { email := body.email, password := body.password }
    (register env cx1 body (Db.fresh s)).2.store s.users row husers
    (fun u hu => (hold u hu).1) hemail (by rw [hpw]; exact hcmp _ _ _) hnf
  refine ⟨hlog.1, ?_, huid⟩
  rw [hlog.2, huid, hid]


/-- Witness of C2: registering `bob` on the demo store and logging in at a later time. -/
theorem register_then_login_witness :
    ((∀ p rounds salt, demoEnv.bcryptCompare p (demoEnv.bcryptHash p rounds salt) = true) ∧
      (register demoEnv demoCtx bob (Db.fresh demoStore)).1.status = 201 ∧
      (∀ k, laterCtx.faults k = false)) ∧
    (login demoEnv laterCtx { email := bob.email, password := bob.password }
        (Db.fresh (register demoEnv demoCtx bob (Db.fresh demoStore)).2.store)).1.status = 200 ∧
    (login demoEnv laterCtx { email := bob.email, password := bob.password }
        (Db.fresh (register demoEnv demoCtx bob (Db.fresh demoStore)).2.store)).1.userId =
      (register demoEnv demoCtx bob (Db.fresh demoStore)).1.userId ∧
    (register demoEnv demoCtx bob (Db.fresh demoStore)).1.userId =
      some (Val.num demoStore.nextUserId) :=
  ⟨⟨fun p _ _ => by simp [demoEnv], by decide, fun _ => rfl⟩,
    register_then_login demoEnv demoCtx laterCtx bob demoStore
      (fun p _ _ => by simp [demoEnv]) (by decide) (fun _ => rfl)⟩

/-- The ledger lookup returns no row exactly when no row holds the token with a later expiry. -/
theorem live_rows_empty_iff (now : Nat) (token : String) (rows : List RefreshTokenRow) :
    (rows.filter (fun r => r.token == token && decide (now < r.expires_at))).length = 0 ↔
      ¬ ∃ r ∈ rows, r.token = token ∧ now < r.expires_at := by
  rw [List.length_eq_zero, List.filter_eq_nil_iff]
  constructor
  · rintro h ⟨r, hr, ht, he⟩
    exact h r hr (by simp [ht, he])
  · intro h r hr hc
    simp only [Bool.and_eq_true, beq_iff_eq, decide_eq_true_eq] at hc
    exact h ⟨r, hr, hc.1, hc.2⟩

/-- Under every fault schedule `validateRefreshToken` leaves the store alone and either throws the
one error it has or returns the claims of a token that verifies and has a live ledger row. -/
theorem validateRefreshToken_error_only (env : Env) (cx : Ctx) (token : String) (db : Db) :
    ((validateRefreshToken env cx token db).1 = Except.error "Invalid or expired refresh token" ∨
      ∃ d, (validateRefreshToken env cx token db).1 = Except.ok d ∧
        env.jwtVerify token cx.now = some d ∧
        ∃ r ∈ db.store.refresh_tokens, r.token = token ∧ cx.now < r.expires_at) ∧
    (validateRefreshToken env cx token db).2.store = db.store := by
  unfold validateRefreshToken verifyToken
  cases hv : env.jwtVerify token cx.now with
  | none => simp
  | some d =>
    dsimp only
    rcases executeQuery_cases cx (selectLiveRefreshTokens cx.now token) db
      with e | ⟨a, s, -, hs, e⟩
    · rw [e]; simp
    · rw [e]
      simp only [selectLiveRefreshTokens, Option.some.injEq, Prod.mk.injEq] at hs
      obtain ⟨rfl, rfl⟩ := hs
      dsimp only
      split
      · simp
      · rename_i hlen
        rw [live_rows_empty_iff] at hlen
        simp only [not_not] at hlen
        exact ⟨Or.inr ⟨d, rfl, rfl, hlen⟩, rfl⟩

/-- C3: when the ledger query is served, `validateRefreshToken` returns claims `d` if and only if
the token verifies to `d` and the ledger holds a row with exactly that token string whose expiry is
later than now; whenever it does not return claims it throws the single error
`Invalid or expired refresh token`; in particular a token with no ledger row is rejected even when
it verifies. The store is left unchanged. -/
theorem validateRefreshToken_iff (env : Env) (cx : Ctx) (token : String) (db : Db)
    (hq : cx.faults db.q = false) :
    (∀ d, (validateRefreshToken env cx token db).1 = Except.ok d ↔
      (env.jwtVerify token cx.now = some d ∧
        ∃ r ∈ db.store.refresh_tokens, r.token = token ∧ cx.now < r.expires_at)) ∧
    ((¬ ∃ d, (validateRefreshToken env cx token db).1 = Except.ok d) →
      (validateRefreshToken env cx token db).1 =
        Except.error "Invalid or expired refresh token") ∧
    ((∀ r ∈ db.store.refresh_tokens, r.token ≠ token) →
      (validateRefreshToken env cx token db).1 =
        Except.error "Invalid or expired refresh token") ∧
    (validateRefreshToken env cx token db).2.store = db.store := by
  have hgen := validateRefreshToken_error_only env cx token db
  have hiff : ∀ d, (validateRefreshToken env cx token db).1 = Except.ok d ↔
      (env.jwtVerify token cx.now = some d ∧
        ∃ r ∈ db.store.refresh_tokens, r.token = token ∧ cx.now < r.expires_at) := by
    intro d
    constructor
    · intro h
      rcases hgen.1 with he | ⟨d2, hd2, hv, hrow⟩
      · rw [he] at h; cases h
      · rw [hd2] at h
        cases h
        exact ⟨hv, hrow⟩
    · rintro ⟨hv, hrow⟩
      unfold validateRefreshToken verifyToken
      rw [hv]
      dsimp only
      rw [executeQuery_ok cx _ db _ db.store hq rfl]
      dsimp only
      rw [if_neg]
      rw [live_rows_empty_iff]
      exact not_not.mpr hrow
  refine ⟨hiff, ?_, ?_, hgen.2⟩
  · intro hno
    rcases hgen.1 with he | ⟨d2, hd2, -, -⟩
    · exact he
    · exact absurd ⟨d2, hd2⟩ hno
  · intro hno
    rcases hgen.1 with he | ⟨d2, -, -, r, hr, ht, -⟩
    · exact he
    · exact absurd ht (hno r hr)


/-- Witness of C3: the stored refresh token of the demo store validates at time 100. -/
theorem validateRefreshToken_iff_witness :
    demoCtx.faults (Db.fresh demoStore).q = false ∧
    (validateRefreshToken demoEnv demoCtx "refresh-1" (Db.fresh demoStore)).1 =
      Except.ok { userId := 1, email := "alice@example.com", iat := 0, exp := 5000 } ∧
    (validateRefreshToken demoEnv demoCtx "refresh-2" (Db.fresh demoStore)).1 =
      Except.error "Invalid or expired refresh token" :=
  ⟨rfl,
    ((validateRefreshToken_iff demoEnv demoCtx "refresh-1" (Db.fresh demoStore) rfl).1 _).mpr
      ⟨by decide,
        { id := 1, user_id := 1, token := "refresh-1", expires_at := 5000, created_at := 0 },
        by decide, rfl, by decide⟩,
    (validateRefreshToken_iff demoEnv demoCtx "refresh-2" (Db.fresh demoStore) rfl).2.2.1
      (by decide)⟩

/-- No stored id equal to `id` means the lookup by id returns no row. -/
theorem filter_id_nil (users : List UserRow) (id : Nat) (h : ∀ u ∈ users, u.id ≠ id) :
    users.filter (fun u => u.id == id) = [] := by
  rw [List.filter_eq_nil_iff]
  intro u hu
  simpa using h u hu

/-- C9: with the user lookup served, `authenticateToken` sorts a request into one of four outcomes
by its bearer token: none gives 401 `Access token required`; a token that does not verify gives 403
`Invalid or expired token`; a verified token whose `userId` has no user row gives 401
`User not found`; otherwise the first row with that id is attached as `req.user`, no response is
sent and control passes onward once. In the three rejecting cases exactly one response is added
and control is not passed onward. The store is never changed. -/
theorem authenticateToken_classifies (env : Env) (cx : Ctx) (x : Exchange) (db : Db)
    (hq : cx.faults db.q = false) :
    (bearerToken x.authorization = none →
      (authenticateToken env cx passOn x db).1.responses =
          x.responses ++ [failure 401 "Access token required"] ∧
        (authenticateToken env cx passOn x db).1.next = x.next ∧
        (authenticateToken env cx passOn x db).1.user = x.user) ∧
    (∀ t, bearerToken x.authorization = some t → env.jwtVerify t cx.now = none →
      (authenticateToken env cx passOn x db).1.responses =
          x.responses ++ [failure 403 "Invalid or expired token"] ∧
        (authenticateToken env cx passOn x db).1.next = x.next ∧
        (authenticateToken env cx passOn x db).1.user = x.user) ∧
    (∀ t d, bearerToken x.authorization = some t → env.jwtVerify t cx.now = some d →
      (∀ u ∈ db.store.users, u.id ≠ d.userId) →
      (authenticateToken env cx passOn x db).1.responses =
          x.responses ++ [failure 401 "User not found"] ∧
        (authenticateToken env cx passOn x db).1.next = x.next ∧
        (authenticateToken env cx passOn x db).1.user = x.user) ∧
    (∀ t d u, bearerToken x.authorization = some t → env.jwtVerify t cx.now = some d →
      (db.store.users.filter (fun r => r.id == d.userId)).head? = some u →
      (authenticateToken env cx passOn x db).1.responses = x.responses ∧
        (authenticateToken env cx passOn x db).1.next = x.next + 1 ∧
        (authenticateToken env cx passOn x db).1.user = some (u.select profileCols)) ∧
    (authenticateToken env cx passOn x db).2.store = db.store := by
  refine ⟨?_, ?_, ?_, ?_, ?_⟩
  · intro hb
    simp [authenticateToken, hb, Exchange.send]
  · intro t hb hv
    simp [authenticateToken, hb, verifyToken, hv, Exchange.send]
  · intro t d hb hv hno
    simp [authenticateToken, hb, verifyToken, hv, executeQuery, hq, selectUsersById,
      filter_id_nil _ _ hno, Exchange.send]
  · intro t d u hb hv hu
    cases hf : db.store.users.filter (fun r => r.id == d.userId) with
    | nil => rw [hf] at hu; cases hu
    | cons a rest =>
      rw [hf] at hu
      simp only [List.head?_cons, Option.some.injEq] at hu
      subst hu
      simp [authenticateToken, hb, verifyToken, hv, executeQuery, hq, selectUsersById, hf, passOn]
  · unfold authenticateToken
    split
    · rfl
    · split
      · rfl
      · rcases executeQuery_cases cx (selectUsersById (‹Decoded›).userId) db
          with e | ⟨a, s, -, hs, e⟩
        · rw [e]
        · rw [e]
          simp only [selectUsersById, Option.some.injEq, Prod.mk.injEq] at hs
          obtain ⟨rfl, rfl⟩ := hs
          dsimp only
          split <;> rfl

/-- Witness of C9: the access token of the stored demo user passes the gate. -/
theorem authenticateToken_classifies_witness :
    demoCtx.faults (Db.fresh demoStore).q = false ∧
    (authenticateToken demoEnv demoCtx passOn (Exchange.incoming (some "Bearer access-1"))
        (Db.fresh demoStore)).1.responses = [] ∧
    (authenticateToken demoEnv demoCtx passOn (Exchange.incoming (some "Bearer access-1"))
        (Db.fresh demoStore)).1.next = 0 + 1 ∧
    (authenticateToken demoEnv demoCtx passOn (Exchange.incoming (some "Bearer access-1"))
        (Db.fresh demoStore)).1.user = some (alice.select profileCols) :=
  ⟨rfl,
    (authenticateToken_classifies demoEnv demoCtx (Exchange.incoming (some "Bearer access-1"))
      (Db.fresh demoStore) rfl).2.2.2.1 "access-1"
      { userId := 1, email := "alice@example.com", iat := 0, exp := 5000 } alice
      (by decide) (by decide) (by decide)⟩

/-- Under every fault schedule the refresh handler leaves the store alone; it answers either 401
or 200 with the profile of the first user row holding the claimed id and a fresh access token, and
no refresh token. -/
theorem refreshToken_outcome (env : Env) (cx : Ctx) (token : String) (db : Db) :
    (refreshToken env cx token db).2.store = db.store ∧
    ((refreshToken env cx token db).1.status = 401 ∨
      ∃ u ∈ db.store.users,
        (refreshToken env cx token db).1 =
          { status := 200,
            body := {
              success := true, message := some "Token refreshed successfully",
              data := some {
                user := some (u.select profileCols),
                accessToken := some (generateToken env cx.now u.id u.email),
                refreshToken := none } } }) := by
  have hv := validateRefreshToken_error_only env cx token db
  unfold refreshToken
  rcases hres : validateRefreshToken env cx token db with ⟨res, db1⟩
  rw [hres] at hv
  dsimp only at hv
  cases res with
  | error e => exact ⟨hv.2, Or.inl rfl⟩
  | ok d =>
    dsimp only
    rcases executeQuery_cases cx (selectUsersById d.userId) db1 with e | ⟨a, s, -, hs, e⟩
    · rw [e]; exact ⟨hv.2, Or.inl rfl⟩
    · rw [e]
      simp only [selectUsersById, Option.some.injEq, Prod.mk.injEq] at hs
      obtain ⟨rfl, rfl⟩ := hs
      dsimp only
      cases hf : db1.store.users.filter (fun u => u.id == d.userId) with
      | nil => exact ⟨hv.2, Or.inl rfl⟩
      | cons u rest =>
        refine ⟨hv.2, Or.inr ⟨u, ?_, rfl⟩⟩
        have hmem : u ∈ db1.store.users.filter (fun u => u.id == d.userId) := by
          rw [hf]; exact List.mem_cons_self _ _
        rw [← hv.2]
        exact (List.mem_filter.mp hmem).1

/-- A sequence of refresh requests leaves the store as it found it. -/
theorem refreshMany_store (env : Env) (token : String) (cxs : List Ctx) (s : Store) :
    (refreshMany env token cxs s).2 = s := by
  induction cxs generalizing s with
  | nil => rfl
  | cons cx rest ih =>
    have h1 := (refreshToken_outcome env cx token (Db.fresh s)).1
    simp only [refreshMany]
    rw [h1]
    exact ih _

/-- C5: the refresh handler does not rotate or consume the refresh token. Under every fault
schedule the store (users table, ledger, counters) after the call equals the store before it; a 200
answer carries exactly a user object and a new access token and no refresh token; any number of
refresh requests leaves the store unchanged, so afterwards `validateRefreshToken` decides a token
exactly as it did before them. -/
theorem refreshToken_does_not_rotate (env : Env) (cx : Ctx) (token : String) (db : Db) :
    (refreshToken env cx token db).2.store = db.store ∧
    ((refreshToken env cx token db).1.status = 200 →
      ∃ u ∈ db.store.users,
        (refreshToken env cx token db).1.body.data =
          some { user := some (u.select profileCols),
                 accessToken := some (generateToken env cx.now u.id u.email),
                 refreshToken := none }) ∧
    (∀ cxs : List Ctx, (refreshMany env token cxs db.store).2 = db.store) ∧
    (∀ (cxs : List Ctx) (cx2 : Ctx),
      (validateRefreshToken env cx2 token
          (Db.fresh (refreshMany env token cxs db.store).2)).1 =
        (validateRefreshToken env cx2 token (Db.fresh db.store)).1) := by
  have h := refreshToken_outcome env cx token db
  refine ⟨h.1, ?_, fun cxs => refreshMany_store env token cxs db.store, ?_⟩
  · intro h200
    rcases h.2 with h401 | ⟨u, hu, he⟩
    · rw [h401] at h200; exact absurd h200 (by decide)
    · exact ⟨u, hu, by rw [he]⟩
  · intro cxs cx2
    rw [refreshMany_store]

/-- A token with no ledger row is refused by the refresh handler under every fault schedule. -/
theorem refreshToken_without_row (env : Env) (cx : Ctx) (token : String) (db : Db)
    (hno : ∀ r ∈ db.store.refresh_tokens, r.token ≠ token) :
    (refreshToken env cx token db).1 = failure 401 "Invalid or expired refresh token" := by
  have hv := validateRefreshToken_error_only env cx token db
  unfold refreshToken
  rcases hv.1 with he | ⟨d, -, -, r, hr, ht, -⟩
  · rcases hres : validateRefreshToken env cx token db with ⟨res, db1⟩
    rw [hres] at he
    dsimp only at he
    subst he
    rfl
  · exact absurd ht (hno r hr)

/-- Refresh requests on a store without a ledger row for the token are all answered 401. -/
theorem refreshMany_without_row (env : Env) (token : String) (cxs : List Ctx) (s : Store)
    (hno : ∀ r ∈ s.refresh_tokens, r.token ≠ token) :
    ∀ r ∈ (refreshMany env token cxs s).1,
      r = failure 401 "Invalid or expired refresh token" := by
  induction cxs generalizing s with
  | nil => intro r hr; simp [refreshMany] at hr
  | cons cx rest ih =>
    intro r hr
    have h1 := (refreshToken_outcome env cx token (Db.fresh s)).1
    have h2 := refreshToken_without_row env cx token (Db.fresh s) hno
    simp only [refreshMany, List.mem_cons] at hr
    rcases hr with hr | hr
    · rw [hr, h2]
    · rw [h1] at hr
      exact ih s hno r hr

/-- The gate on an incoming request either rejects with one 401 or 403 response and does not pass
control onward, or sends nothing, passes control onward once and has issued exactly one query. -/
theorem authenticateToken_incoming (env : Env) (cx : Ctx) (authorization : Option String)
    (s : Store) :
    ((authenticateToken env cx passOn (Exchange.incoming authorization) (Db.fresh s)).1.next = 0 ∧
      ∃ r, (authenticateToken env cx passOn (Exchange.incoming authorization)
          (Db.fresh s)).1.responses = [r] ∧ (r.status = 401 ∨ r.status = 403)) ∨
    ((authenticateToken env cx passOn (Exchange.incoming authorization) (Db.fresh s)).1.next = 1 ∧
      (authenticateToken env cx passOn (Exchange.incoming authorization)
          (Db.fresh s)).1.responses = [] ∧
      (authenticateToken env cx passOn (Exchange.incoming authorization) (Db.fresh s)).2.store = s ∧
      (authenticateToken env cx passOn (Exchange.incoming authorization) (Db.fresh s)).2.q = 1) := by
  unfold authenticateToken
  split
  · left; exact ⟨rfl, _, rfl, Or.inl rfl⟩
  · split
    · left; exact ⟨rfl, _, rfl, Or.inr rfl⟩
    · rcases executeQuery_cases cx (selectUsersById (‹Decoded›).userId) (Db.fresh s)
        with e | ⟨a, s2, -, hs, e⟩
      · rw [e]; left; exact ⟨rfl, _, rfl, Or.inr rfl⟩
      · rw [e]
        simp only [selectUsersById, Option.some.injEq, Prod.mk.injEq] at hs
        obtain ⟨rfl, rfl⟩ := hs
        dsimp only
        split
        · left; exact ⟨rfl, _, rfl, Or.inl rfl⟩
        · right; exact ⟨rfl, rfl, rfl, rfl⟩

/-- C4 (amended): if an authenticated logout whose body carries the non-empty token `t` was answered
200 and the DELETE it issued (the second query of the request, after the lookup of the gate) was
served, then the ledger left behind holds no row with token `t`, and every refresh request with `t`
served afterwards, at any time and under any fault schedule, is answered 401. -/
theorem logout_then_refresh_rejected (env : Env) (cx : Ctx) (authorization : Option String)
    (t : String) (s : Store)
    (ht : t ≠ "")
    (hok : ∃ r, (logoutRoute env cx authorization (some t) s).1.responses = [r] ∧ r.status = 200)
    (hdel : cx.faults 1 = false) :
    (∀ row ∈ (logoutRoute env cx authorization (some t) s).2.store.refresh_tokens,
      row.token ≠ t) ∧
    ∀ cxs : List Ctx,
      ∀ r ∈ (refreshMany env t cxs (logoutRoute env cx authorization (some t) s).2.store).1,
        r = failure 401 "Invalid or expired refresh token" := by
  have hrows : ∀ row ∈ (logoutRoute env cx authorization (some t) s).2.store.refresh_tokens,
      row.token ≠ t := by
    obtain ⟨r, hr, h200⟩ := hok
    unfold logoutRoute gated at hr ⊢
    rcases hg : authenticateToken env cx passOn (Exchange.incoming authorization) (Db.fresh s)
      with ⟨x1, db1⟩
    rw [hg] at hr
    dsimp only at hr ⊢
    have hinc := authenticateToken_incoming env cx authorization s
    rw [hg] at hinc
    dsimp only at hinc
    rcases hinc with ⟨hn, r2, hr2, hst⟩ | ⟨hn, hnil, hstore, hq⟩
    · rw [if_pos hn] at hr
      rw [hr2] at hr
      simp only [List.cons.injEq, and_true] at hr
      subst hr
      rcases hst with h | h <;> rw [h] at h200 <;> exact absurd h200 (by decide)
    · rw [if_neg (by rw [hn]; decide)]
      have hq1 : cx.faults db1.q = false := by rw [hq]; exact hdel
      simp only [logout, if_neg ht, removeRefreshToken, executeQuery, hq1, deleteRefreshToken]
      intro row hrow
      simp only [Bool.false_eq_true, if_false, List.mem_filter, Bool.not_eq_true',
        beq_eq_false_iff_ne, ne_eq] at hrow
      exact hrow.2
  exact ⟨hrows, fun cxs => refreshMany_without_row env t cxs _ hrows⟩

/-- Witness of C4 (amended): logging out the demo user with her stored refresh token. -/
theorem logout_then_refresh_rejected_witness :
    ("refresh-1" ≠ "" ∧
      (∃ r, (logoutRoute demoEnv demoCtx (some "Bearer access-1") (some "refresh-1")
          demoStore).1.responses = [r] ∧ r.status = 200) ∧
      demoCtx.faults 1 = false) ∧
    ((∀ row ∈ (logoutRoute demoEnv demoCtx (some "Bearer access-1") (some "refresh-1")
        demoStore).2.store.refresh_tokens, row.token ≠ "refresh-1") ∧
      ∀ cxs : List Ctx,
        ∀ r ∈ (refreshMany demoEnv "refresh-1" cxs
            (logoutRoute demoEnv demoCtx (some "Bearer access-1") (some "refresh-1")
              demoStore).2.store).1,
          r = failure 401 "Invalid or expired refresh token") :=
  ⟨⟨by decide,
      ⟨{ status := 200,
         body := { success := true, message := some "Logout successful", data := none } },
        by decide, rfl⟩,
      rfl⟩,
    logout_then_refresh_rejected demoEnv demoCtx (some "Bearer access-1") "refresh-1" demoStore
      (by decide)
      ⟨{ status := 200,
         body := { success := true, message := some "Logout successful", data := none } },
        by decide, rfl⟩
      rfl⟩

/-- Counterexample to C4 as stated: the DELETE of the logout request fails, `removeRefreshToken`
swallows the failure, the logout is still answered 200 with the ledger untouched, and a later
refresh request with the same token is answered 200, not 401. -/
theorem logout_then_refresh_counterexample :
    (logoutRoute demoEnv faultySecondQuery (some "Bearer access-1") (some "refresh-1")
        demoStore).1.responses =
      [{ status := 200,
         body := { success := true, message := some "Logout successful", data := none } }] ∧
    (logoutRoute demoEnv faultySecondQuery (some "Bearer access-1") (some "refresh-1")
        demoStore).2.store = demoStore ∧
    (refreshToken demoEnv laterCtx "refresh-1"
        (Db.fresh (logoutRoute demoEnv faultySecondQuery (some "Bearer access-1")
          (some "refresh-1") demoStore).2.store)).1.status = 200 ∧
    (refreshToken demoEnv laterCtx "refresh-1"
        (Db.fresh (logoutRoute demoEnv faultySecondQuery (some "Bearer access-1")
          (some "refresh-1") demoStore).2.store)).1.status ≠ 401 := by
  decide

/-- C7: on one store, a login for an email with no user row and a login for a stored email whose
password does not match (both with the lookup served) get the same answer, 401 with the body
`{success: false, message: "Invalid email or password"}`, and neither changes the store. -/
theorem login_failures_indistinguishable (env : Env) (cx1 cx2 : Ctx) (b1 b2 : LoginBody)
    (s : Store)
    (hq1 : cx1.faults 0 = false) (hq2 : cx2.faults 0 = false)
    (hno : ∀ u ∈ s.users, u.email ≠ b1.email)
    (_hex : ∃ u ∈ s.users, u.email = b2.email)
    (hwrong : ∀ u ∈ s.users, u.email = b2.email →
      env.bcryptCompare b2.password u.password = false) :
    (login env cx1 b1 (Db.fresh s)).1 = failure 401 "Invalid email or password" ∧
    (login env cx2 b2 (Db.fresh s)).1 = failure 401 "Invalid email or password" ∧
    (login env cx1 b1 (Db.fresh s)).1 = (login env cx2 b2 (Db.fresh s)).1 ∧
    (login env cx1 b1 (Db.fresh s)).2.store = s ∧
    (login env cx2 b2 (Db.fresh s)).2.store = s := by
  have hnil : s.users.filter (fun u => u.email == b1.email) = [] := by
    rw [List.filter_eq_nil_iff]
    intro u hu
    simpa using hno u hu
  have h1 : login env cx1 b1 (Db.fresh s) =
      (failure 401 "Invalid email or password", { store := s, q := 1 }) := by
    unfold login
    rw [executeQuery_ok cx1 (selectUsersByEmail b1.email) (Db.fresh s) [] s hq1
      (by simp [selectUsersByEmail, Db.fresh, hnil])]
    rfl
  have h2 : login env cx2 b2 (Db.fresh s) =
      (failure 401 "Invalid email or password", { store := s, q := 1 }) := by
    unfold login
    cases hf : s.users.filter (fun u => u.email == b2.email) with
    | nil =>
      rw [executeQuery_ok cx2 (selectUsersByEmail b2.email) (Db.fresh s) [] s hq2
        (by simp [selectUsersByEmail, Db.fresh, hf])]
      rfl
    | cons u rest =>
      have hmem : u ∈ s.users.filter (fun u => u.email == b2.email) := by
        rw [hf]; exact List.mem_cons_self _ _
      rw [List.mem_filter] at hmem
      have hbad := hwrong u hmem.1 (by simpa using hmem.2)
      rw [executeQuery_ok cx2 (selectUsersByEmail b2.email) (Db.fresh s) (u :: rest) s hq2
        (by simp [selectUsersByEmail, Db.fresh, hf])]
      dsimp only
      rw [if_pos hbad]
      rfl
  rw [h1, h2]
  exact ⟨rfl, rfl, rfl, rfl, rfl⟩

/-- C8: on one store, with its queries served, the forgot-password handler answers an email with
no user row and an email of a stored user alike: status 200 with the same generic message. -/
theorem forgotPassword_same_response (env : Env) (cx1 cx2 : Ctx) (e1 e2 : String) (s : Store)
    (hq1 : cx1.faults 0 = false) (hq2 : cx2.faults 0 = false ∧ cx2.faults 1 = false)
    (hno : ∀ u ∈ s.users, u.email ≠ e1)
    (_hex : ∃ u ∈ s.users, u.email = e2) :
    (forgotPassword env cx1 e1 (Db.fresh s)).1 = (forgotPassword env cx2 e2 (Db.fresh s)).1 ∧
    (forgotPassword env cx2 e2 (Db.fresh s)).1 =
      { status := 200,
        body := { success := true, message := some resetLinkSent, data := none } } := by
  have hnil : s.users.filter (fun u => u.email == e1) = [] := by
    rw [List.filter_eq_nil_iff]
    intro u hu
    simpa using hno u hu
  have h1 : (forgotPassword env cx1 e1 (Db.fresh s)).1 =
      { status := 200,
        body := { success := true, message := some resetLinkSent, data := none } } := by
    unfold forgotPassword
    rw [executeQuery_ok cx1 (selectUsersByEmail e1) (Db.fresh s) [] s hq1
      (by simp [selectUsersByEmail, Db.fresh, hnil])]
  have h2 : (forgotPassword env cx2 e2 (Db.fresh s)).1 =
      { status := 200,
        body := { success := true, message := some resetLinkSent, data := none } } := by
    unfold forgotPassword
    cases hf : s.users.filter (fun u => u.email == e2) with
    | nil =>
      rw [executeQuery_ok cx2 (selectUsersByEmail e2) (Db.fresh s) [] s hq2.1
        (by simp [selectUsersByEmail, Db.fresh, hf])]
    | cons u rest =>
      rw [executeQuery_ok cx2 (selectUsersByEmail e2) (Db.fresh s) (u :: rest) s hq2.1
        (by simp [selectUsersByEmail, Db.fresh, hf])]
      dsimp only
      rw [executeQuery_ok cx2 _ _ () _ hq2.2 rfl]
  rw [h1, h2]
  exact ⟨rfl, rfl⟩

/-- Witness of C7: an unknown email and the stored email with a wrong password on the demo store. -/
theorem login_failures_indistinguishable_witness :
    (demoCtx.faults 0 = false ∧ laterCtx.faults 0 = false ∧
      (∀ u ∈ demoStore.users, u.email ≠ "nobody@example.com") ∧
      (∃ u ∈ demoStore.users, u.email = "alice@example.com") ∧
      (∀ u ∈ demoStore.users, u.email = "alice@example.com" →
        demoEnv.bcryptCompare "Wrong1" u.password = false)) ∧
    (login demoEnv demoCtx { email := "nobody@example.com", password := "Secret1" }
        (Db.fresh demoStore)).1 =
      (login demoEnv laterCtx { email := "alice@example.com", password := "Wrong1" }
        (Db.fresh demoStore)).1 :=
  ⟨⟨rfl, rfl, by decide, ⟨alice, by decide, rfl⟩, by decide⟩,
    (login_failures_indistinguishable demoEnv demoCtx laterCtx
      { email := "nobody@example.com", password := "Secret1" }
      { email := "alice@example.com", password := "Wrong1" } demoStore rfl rfl (by decide)
      ⟨alice, by decide, rfl⟩ (by decide)).2.2.1⟩

/-- Witness of C8: an unknown email and the stored email on the demo store. -/
theorem forgotPassword_same_response_witness :
    (demoCtx.faults 0 = false ∧ (laterCtx.faults 0 = false ∧ laterCtx.faults 1 = false) ∧
      (∀ u ∈ demoStore.users, u.email ≠ "nobody@example.com") ∧
      (∃ u ∈ demoStore.users, u.email = "alice@example.com")) ∧
    (forgotPassword demoEnv demoCtx "nobody@example.com" (Db.fresh demoStore)).1 =
      (forgotPassword demoEnv laterCtx "alice@example.com" (Db.fresh demoStore)).1 :=
  ⟨⟨rfl, ⟨rfl, rfl⟩, by decide, ⟨alice, by decide, rfl⟩⟩,
    (forgotPassword_same_response demoEnv demoCtx laterCtx "nobody@example.com" "alice@example.com"
      demoStore rfl ⟨rfl, rfl⟩ (by decide) ⟨alice, by decide, rfl⟩).1⟩

/-- A 200 answer of the reset-password handler means that both queries were served, that the
lookup found a live row `user` for the token, and that the UPDATE by the id of that row ran. -/
theorem resetPassword_ok (env : Env) (cx : Ctx) (token password : String) (db : Db)
    (h : (resetPassword env cx token password db).1.status = 200) :
    ∃ user ∈ db.store.users, user.password_reset_token = some token ∧
      (resetPassword env cx token password db).2.store.users =
        db.store.users.map (fun u =>
          if u.id == user.id then
            (if ({ u with password := env.bcryptHash password (saltRounds env) cx.salt,
                          password_reset_token := none, password_reset_expires := none,
                          updated_at := cx.now } : UserRow) = u then u
             else { ({ u with password := env.bcryptHash password (saltRounds env) cx.salt,
                              password_reset_token := none, password_reset_expires := none,
                              updated_at := cx.now } : UserRow) with updated_at := cx.now })
          else u) := by
  unfold resetPassword at h ⊢
  rcases executeQuery_cases cx (selectUsersByResetToken cx.now token) db
    with e1 | ⟨a1, s1, -, hs1, e1⟩
  · rw [e1] at h; exact absurd h (by simp [failure])
  rw [e1] at h ⊢
  simp only [selectUsersByResetToken, Option.some.injEq, Prod.mk.injEq] at hs1
  obtain ⟨rfl, rfl⟩ := hs1
  dsimp only at h ⊢
  split at h
  · exact absurd h (by simp [failure])
  rename_i user rest hf
  have hmem : user ∈ db.store.users.filter (fun u =>
      u.password_reset_token == some token &&
        (match u.password_reset_expires with
          | none => false
          | some e => decide (cx.now < e))) := by
    rw [hf]; exact List.mem_cons_self _ _
  rw [List.mem_filter] at hmem
  simp only [Bool.and_eq_true, beq_iff_eq] at hmem
  generalize hdb1 : ({ store := db.store, q := db.q + 1 } : Db) = db1 at h ⊢
  have hst : db1.store = db.store := by rw [← hdb1]
  rcases executeQuery_cases cx (updateUsersById cx.now user.id (fun u =>
      { u with password := env.bcryptHash password (saltRounds env) cx.salt,
               password_reset_token := none, password_reset_expires := none,
               updated_at := cx.now })) db1 with e2 | ⟨a2, s2, -, hs2, e2⟩
  · rw [e2] at h; exact absurd h (by simp [failure])
  rw [e2]
  simp only [updateUsersById, Option.some.injEq, Prod.mk.injEq] at hs2
  obtain ⟨-, rfl⟩ := hs2
  exact ⟨user, hmem.1, hmem.2.1, by rw [hst]⟩

/-- C6: a password-reset token is single-use. On a store in which at most one user row holds `t`
as its reset token, if the reset-password handler answers 200 for `t`, then a later request with the
same `t` (its lookup served, any password, any time) on the store left behind is answered 400
`Invalid or expired reset token`. -/
theorem resetPassword_single_use (env : Env) (cx1 cx2 : Ctx) (t pw1 pw2 : String) (s : Store)
    (huniq : (s.users.filter (fun u => u.password_reset_token == some t)).length ≤ 1)
    (hfirst : (resetPassword env cx1 t pw1 (Db.fresh s)).1.status = 200)
    (hq : cx2.faults 0 = false) :
    (resetPassword env cx2 t pw2
        (Db.fresh (resetPassword env cx1 t pw1 (Db.fresh s)).2.store)).1 =
      failure 400 "Invalid or expired reset token" := by
  obtain ⟨user, humem, hutok, husers⟩ := resetPassword_ok env cx1 t pw1 (Db.fresh s) hfirst
  have hone : ∀ u ∈ s.users, u.password_reset_token = some t → u = user := by
    intro u hu htok
    have h1 : u ∈ s.users.filter (fun u => u.password_reset_token == some t) :=
      List.mem_filter.mpr ⟨hu, by simp [htok]⟩
    have h2 : user ∈ s.users.filter (fun u => u.password_reset_token == some t) :=
      List.mem_filter.mpr ⟨humem, by simp [hutok]⟩
    match hl : s.users.filter (fun u => u.password_reset_token == some t), huniq with
    | [], _ => rw [hl] at h1; cases h1
    | [a], _ =>
      rw [hl] at h1 h2
      rw [List.mem_singleton] at h1 h2
      rw [h1, h2]
    | _ :: _ :: _, hle => rw [hl] at hle; simp at hle
  have hnone : ∀ r ∈ (resetPassword env cx1 t pw1 (Db.fresh s)).2.store.users,
      r.password_reset_token ≠ some t := by
    intro r hr
    rw [husers, List.mem_map] at hr
    obtain ⟨u, hu, rfl⟩ := hr
    have hs : (Db.fresh s).store = s := rfl
    rw [hs] at hu
    split
    · split
      · rename_i heq
        intro hc
        rw [← heq] at hc
        cases hc
      · intro hc; cases hc
    · rename_i hne
      intro hc
      have := hone u hu hc
      subst this
      simp at hne
  have hnil : (resetPassword env cx1 t pw1 (Db.fresh s)).2.store.users.filter (fun u =>
      u.password_reset_token == some t &&
        (match u.password_reset_expires with
          | none => false
          | some e => decide (cx2.now < e))) = [] := by
    rw [List.filter_eq_nil_iff]
    intro u hu
    simp [hnone u hu]
  generalize (resetPassword env cx1 t pw1 (Db.fresh s)).2.store = s1 at hnil ⊢
  unfold resetPassword
  rw [executeQuery_ok cx2 (selectUsersByResetToken cx2.now t) (Db.fresh s1) [] s1 hq
    (by simp only [selectUsersByResetToken, Db.fresh]; rw [hnil])]

/-- Witness of C6: resetting the password of the demo user with her reset token, twice. -/
theorem resetPassword_single_use_witness :
    ((demoStore.users.filter (fun u => u.password_reset_token == some "reset-1")).length ≤ 1 ∧
      (resetPassword demoEnv demoCtx "reset-1" "Fresh3" (Db.fresh demoStore)).1.status = 200 ∧
      laterCtx.faults 0 = false) ∧
    (resetPassword demoEnv laterCtx "reset-1" "Other4"
        (Db.fresh (resetPassword demoEnv demoCtx "reset-1" "Fresh3"
          (Db.fresh demoStore)).2.store)).1 =
      failure 400 "Invalid or expired reset token" :=
  ⟨⟨by decide, by decide, rfl⟩,
    resetPassword_single_use demoEnv demoCtx laterCtx "reset-1" "Fresh3" "Other4" demoStore
      (by decide) (by decide) rfl⟩

/-- C6 (counterexample to the unrestricted reading): on a store in which two user rows hold the
reset token `reset-1`, the handler clears the token of the first matching row only, so a second
request with the same token is served again: both answer 200, the second one is not the 400
refusal, and it rewrites the password of the second holder. -/
theorem resetPassword_shared_token_counterexample :
    ¬ ((sharedTokenStore.users.filter
          (fun u => u.password_reset_token == some "reset-1")).length ≤ 1) ∧
    (resetPassword demoEnv demoCtx "reset-1" "Fresh3" (Db.fresh sharedTokenStore)).1.status = 200 ∧
    laterCtx.faults 0 = false ∧
    (resetPassword demoEnv laterCtx "reset-1" "Other4"
        (Db.fresh (resetPassword demoEnv demoCtx "reset-1" "Fresh3"
          (Db.fresh sharedTokenStore)).2.store)).1.status = 200 ∧
    (resetPassword demoEnv laterCtx "reset-1" "Other4"
        (Db.fresh (resetPassword demoEnv demoCtx "reset-1" "Fresh3"
          (Db.fresh sharedTokenStore)).2.store)).1 ≠
      failure 400 "Invalid or expired reset token" ∧
    ((resetPassword demoEnv laterCtx "reset-1" "Other4"
        (Db.fresh (resetPassword demoEnv demoCtx "reset-1" "Fresh3"
          (Db.fresh sharedTokenStore)).2.store)).2.store.users.map
        (fun u => (u.id, u.password, u.password_reset_token))) =
      [(1, "hashed:Fresh3", none), (2, "hashed:Other4", none)] := by
  decide

/-- C10 (failing input): a request without an Authorization header. `authenticateToken` answers
401, and `requireAdmin`, which does not look at that outcome, goes on to read `req.user.id`, fails,
and answers a second time with 403 from its `catch`: two responses for one request, under every
environment, fault schedule and store. Control is not passed onward. -/
theorem requireAdmin_missing_token_two_responses (env : Env) (cx : Ctx) (db : Db) :
    (requireAdmin env cx passOn (Exchange.incoming none) db).1.responses =
      [failure 401 "Access token required", failure 403 "Admin authentication failed"] ∧
    (requireAdmin env cx passOn (Exchange.incoming none) db).1.responses.length = 2 ∧
    (requireAdmin env cx passOn (Exchange.incoming none) db).1.next = 0 := by
  simp [requireAdmin, authenticateToken, bearerToken, Exchange.incoming, Exchange.send]

/-- Whenever the authenticate step of `requireAdmin` rejects an incoming request (missing token,
token that does not verify, failed lookup or unknown user), `requireAdmin` adds a second response,
403 `Admin authentication failed`, after the one `authenticateToken` sent. -/
theorem requireAdmin_after_rejection (env : Env) (cx : Ctx) (authorization : Option String)
    (db : Db)
    (hrej : (authenticateToken env cx noop (Exchange.incoming authorization) db).1.user = none) :
    ∃ r, (authenticateToken env cx noop (Exchange.incoming authorization) db).1.responses = [r] ∧
      (requireAdmin env cx passOn (Exchange.incoming authorization) db).1.responses =
        [r, failure 403 "Admin authentication failed"] ∧
      (requireAdmin env cx passOn (Exchange.incoming authorization) db).1.next = 0 := by
  have hresp : ∃ r, (authenticateToken env cx noop (Exchange.incoming authorization)
      db).1.responses = [r] ∧
      (authenticateToken env cx noop (Exchange.incoming authorization) db).1.next = 0 := by
    unfold authenticateToken at hrej ⊢
    split at hrej
    · exact ⟨_, rfl, rfl⟩
    · split at hrej
      · exact ⟨_, rfl, rfl⟩
      · rename_i d hv
        rcases executeQuery_cases cx (selectUsersById d.userId) db with e | ⟨a, s, -, -, e⟩
        · rw [e]; exact ⟨_, rfl, rfl⟩
        · rw [e] at hrej ⊢
          dsimp only at hrej ⊢
          split at hrej
          · exact ⟨_, rfl, rfl⟩
          · exact absurd hrej (by simp [noop])
  obtain ⟨r, hr, hn⟩ := hresp
  refine ⟨r, hr, ?_⟩
  unfold requireAdmin
  rcases hg : authenticateToken env cx noop (Exchange.incoming authorization) db with ⟨x1, db1⟩
  rw [hg] at hrej hr hn
  dsimp only at hrej hr hn ⊢
  rw [hrej]
  dsimp only
  simp [Exchange.send, hr, hn]

/-- Registration succeeds on every store: when no row has the email or the next id and every
query is served, the register handler answers 201. -/
theorem register_succeeds (env : Env) (cx : Ctx) (body : RegisterBody) (s : Store)
    (hnf : ∀ k, cx.faults k = false)
    (hnew : ∀ u ∈ s.users, u.email ≠ body.email ∧ u.id ≠ s.nextUserId) :
    (register env cx body (Db.fresh s)).1.status = 201 := by
  have hnil : s.users.filter (fun u => u.email == body.email) = [] := by
    rw [List.filter_eq_nil_iff]
    intro u hu
    simpa using (hnew u hu).1
  have hdup : s.users.any (fun u => u.email == body.email || u.id == s.nextUserId) = false := by
    rw [List.any_eq_false]
    intro u hu
    simp [(hnew u hu).1, (hnew u hu).2]
  unfold register
  rw [executeQuery_ok cx (selectUsersByEmail body.email) (Db.fresh s) [] s (hnf _)
    (by simp [selectUsersByEmail, Db.fresh, hnil])]
  dsimp only
  rw [if_neg (by simp)]
  rw [executeQuery_ok cx _ _ s.nextUserId _ (hnf _) (by simp only [insertUser, hdup]; rfl)]
  dsimp only
  unfold storeRefreshToken
  rw [executeQuery_ok cx _ _ () _ (hnf _)
    (by simp only [insertRefreshToken, newUser, List.any_append, List.any_cons, beq_self_eq_true,
          Bool.true_or, Bool.or_true, if_true]; rfl)]
  dsimp only
  rw [executeQuery_ok cx _ _ _ _ (hnf _) (by simp only [selectUsersById]; rfl)]

/-- The row object the gate attaches carries the verification flag of the row. -/
theorem select_profile_verified (u : UserRow) :
    (u.select profileCols).get "is_email_verified" = some (Val.bool u.is_email_verified) := by
  simp [UserRow.select, profileCols, Obj.get, UserRow.col]

/-- C11: for every request with an attached user whose `is_email_verified` is false,
`requireEmailVerification` answers 403 `Email verification required` and does not pass control
onward, whatever Authorization header the request carries; when the flag is true it passes control
onward once and sends no response. In particular this holds for the user object the gate attaches
from a row, by the flag of that row. -/
theorem requireEmailVerification_gate (x : Exchange) (reqUser : Obj)
    (huser : x.user = some reqUser) :
    (reqUser.get "is_email_verified" = some (Val.bool false) →
      requireEmailVerification passOn x =
        Except.ok { x with
          responses := x.responses ++ [failure 403 "Email verification required"] }) ∧
    (reqUser.get "is_email_verified" = some (Val.bool true) →
      requireEmailVerification passOn x = Except.ok { x with next := x.next + 1 }) ∧
    (∀ row : UserRow, reqUser = row.select profileCols →
      requireEmailVerification passOn x =
        if row.is_email_verified then Except.ok { x with next := x.next + 1 }
        else Except.ok { x with
          responses := x.responses ++ [failure 403 "Email verification required"] }) := by
  refine ⟨?_, ?_, ?_⟩
  · intro h
    simp [requireEmailVerification, huser, h, truthy, Exchange.send]
  · intro h
    simp [requireEmailVerification, huser, h, truthy, passOn]
  · intro row hrow
    subst hrow
    have hflag := select_profile_verified row
    cases hv : row.is_email_verified <;> rw [hv] at hflag <;>
      simp [requireEmailVerification, huser, hflag, truthy, Exchange.send, passOn]

/-- Witness of C11: the demo user is not verified, so a request carrying her valid access token and
her attached row object is answered 403. -/
theorem requireEmailVerification_gate_witness :
    ({ authorization := some "Bearer access-1", user := some (alice.select profileCols),
       responses := [], next := 0 } : Exchange).user = some (alice.select profileCols) ∧
    requireEmailVerification passOn
        { authorization := some "Bearer access-1", user := some (alice.select profileCols),
          responses := [], next := 0 } =
      Except.ok
        { authorization := some "Bearer access-1", user := some (alice.select profileCols),
          responses := [failure 403 "Email verification required"], next := 0 } :=
  ⟨rfl,
    (requireEmailVerification_gate
      { authorization := some "Bearer access-1", user := some (alice.select profileCols),
        responses := [], next := 0 } (alice.select profileCols) rfl).1 (by decide)⟩

/-- C12: `optionalAuth` never rejects. For every request, environment, store and fault schedule
(no header, malformed header, token that does not verify, failed lookup, unknown user) it sends no
response and passes control onward exactly once; the attached user changes only when the bearer
token verifies and the lookup by the claimed id is served and finds a row, and then it is the
profile object of the first such row. The store is left unchanged. -/
theorem optionalAuth_never_rejects (env : Env) (cx : Ctx) (x : Exchange) (db : Db) :
    (optionalAuth env cx passOn x db).1.responses = x.responses ∧
    (optionalAuth env cx passOn x db).1.next = x.next + 1 ∧
    ((optionalAuth env cx passOn x db).1.user = x.user ∨
      ∃ t d u, bearerToken x.authorization = some t ∧ env.jwtVerify t cx.now = some d ∧
        cx.faults db.q = false ∧
        (db.store.users.filter (fun r => r.id == d.userId)).head? = some u ∧
        (optionalAuth env cx passOn x db).1.user = some (u.select profileCols)) ∧
    (optionalAuth env cx passOn x db).2.store = db.store := by
  unfold optionalAuth verifyToken
  cases hb : bearerToken x.authorization with
  | none => exact ⟨rfl, rfl, Or.inl rfl, rfl⟩
  | some t =>
    dsimp only
    cases hv : env.jwtVerify t cx.now with
    | none => exact ⟨rfl, rfl, Or.inl rfl, rfl⟩
    | some d =>
      dsimp only
      rcases executeQuery_cases cx (selectUsersById d.userId) db with e | ⟨a, s, hq, hs, e⟩
      · rw [e]; exact ⟨rfl, rfl, Or.inl rfl, rfl⟩
      · rw [e]
        simp only [selectUsersById, Option.some.injEq, Prod.mk.injEq] at hs
        obtain ⟨rfl, rfl⟩ := hs
        dsimp only
        cases hf : db.store.users.filter (fun u => u.id == d.userId) with
        | nil => exact ⟨rfl, rfl, Or.inl rfl, rfl⟩
        | cons u rest =>
          exact ⟨rfl, rfl, Or.inr ⟨t, d, u, rfl, hv, hq, by rw [hf]; rfl, rfl⟩, rfl⟩

/-- Under every fault schedule `removeRefreshToken` returns a database whose users table and
counters are those it was given and whose ledger is either untouched (the DELETE failed) or the
rows whose token differs from the given one (the DELETE was served). -/
theorem removeRefreshToken_outcome (cx : Ctx) (t : String) (db : Db) :
    ((removeRefreshToken cx t db).store = db.store ∧ cx.faults db.q = true) ∨
    ((removeRefreshToken cx t db).store =
        { db.store with
          refresh_tokens := db.store.refresh_tokens.filter (fun r => !(r.token == t)) } ∧
      cx.faults db.q = false) := by
  unfold removeRefreshToken executeQuery
  by_cases hq : cx.faults db.q = true
  · left; simp [hq]
  · right
    simp only [Bool.not_eq_true] at hq
    simp [hq, deleteRefreshToken]

/-- C13 (amended): `removeRefreshToken` returns normally under every fault schedule. When its
DELETE is served, the resulting ledger holds no row with token `t` and is exactly the original
ledger restricted to the rows whose token differs from `t` (also when no row holds `t`, in which
case it is the original ledger), the users table is untouched, and a second application with the
same `t`, served or not, leaves the ledger unchanged. -/
theorem removeRefreshToken_idempotent (cx cx2 : Ctx) (t : String) (db : Db)
    (hq : cx.faults db.q = false) :
    (removeRefreshToken cx t db).store.refresh_tokens =
      db.store.refresh_tokens.filter (fun r => !(r.token == t)) ∧
    (∀ r ∈ (removeRefreshToken cx t db).store.refresh_tokens, r.token ≠ t) ∧
    (∀ r, r ∈ (removeRefreshToken cx t db).store.refresh_tokens ↔
      (r ∈ db.store.refresh_tokens ∧ r.token ≠ t)) ∧
    ((∀ r ∈ db.store.refresh_tokens, r.token ≠ t) →
      (removeRefreshToken cx t db).store.refresh_tokens = db.store.refresh_tokens) ∧
    (removeRefreshToken cx t db).store.users = db.store.users ∧
    (removeRefreshToken cx2 t (removeRefreshToken cx t db)).store.refresh_tokens =
      (removeRefreshToken cx t db).store.refresh_tokens ∧
    (∀ cx3 : Ctx, (removeRefreshToken cx3 t db).store = db.store ∨
      (removeRefreshToken cx3 t db).store =
        { db.store with
          refresh_tokens := db.store.refresh_tokens.filter (fun r => !(r.token == t)) }) := by
  have h1 : (removeRefreshToken cx t db).store =
      { db.store with
        refresh_tokens := db.store.refresh_tokens.filter (fun r => !(r.token == t)) } := by
    rcases removeRefreshToken_outcome cx t db with ⟨-, hf⟩ | ⟨h, -⟩
    · rw [hq] at hf; cases hf
    · exact h
  have hmem : ∀ r, r ∈ db.store.refresh_tokens.filter (fun r => !(r.token == t)) ↔
      (r ∈ db.store.refresh_tokens ∧ r.token ≠ t) := by
    intro r
    simp [List.mem_filter]
  refine ⟨by rw [h1], ?_, ?_, ?_, by rw [h1], ?_, ?_⟩
  · intro r hr
    rw [h1] at hr
    exact ((hmem r).mp hr).2
  · intro r
    rw [h1]
    exact hmem r
  · intro hno
    rw [h1]
    apply List.filter_eq_self.mpr
    intro r hr
    simpa using hno r hr
  · rcases removeRefreshToken_outcome cx2 t (removeRefreshToken cx t db) with ⟨h, -⟩ | ⟨h, -⟩
    · rw [h]
    · rw [h, h1]
      simp [List.filter_filter]
  · intro cx3
    rcases removeRefreshToken_outcome cx3 t db with ⟨h, -⟩ | ⟨h, -⟩
    · exact Or.inl h
    · exact Or.inr h

/-- Witness of C13 (amended): removing the stored refresh token of the demo store. -/
theorem removeRefreshToken_idempotent_witness :
    demoCtx.faults (Db.fresh demoStore).q = false ∧
    (removeRefreshToken demoCtx "refresh-1" (Db.fresh demoStore)).store.refresh_tokens = [] ∧
    (removeRefreshToken laterCtx "refresh-1"
        (removeRefreshToken demoCtx "refresh-1" (Db.fresh demoStore))).store.refresh_tokens =
      (removeRefreshToken demoCtx "refresh-1" (Db.fresh demoStore)).store.refresh_tokens :=
  ⟨rfl,
    (removeRefreshToken_idempotent demoCtx laterCtx "refresh-1" (Db.fresh demoStore) rfl).1.trans
      (by decide),
    (removeRefreshToken_idempotent demoCtx laterCtx "refresh-1" (Db.fresh demoStore)
      rfl).2.2.2.2.2.1⟩

/-- Counterexample to C13 as stated: the DELETE fails, `removeRefreshToken` returns normally, and
the ledger still holds the row with the token. -/
theorem removeRefreshToken_counterexample :
    (removeRefreshToken faultyFirstQuery "refresh-1" (Db.fresh demoStore)).store = demoStore ∧
    ∃ r ∈ (removeRefreshToken faultyFirstQuery "refresh-1"
        (Db.fresh demoStore)).store.refresh_tokens, r.token = "refresh-1" := by
  decide

/-- Splitting never yields the empty list of segments. -/
theorem splitSpace_ne_nil (cs : List Char) : splitSpace cs ≠ [] := by
  cases cs with
  | nil => simp [splitSpace]
  | cons c cs =>
    unfold splitSpace
    split
    · simp
    · split <;> simp

/-- A segment without a space followed by a space is the first segment. -/
theorem splitSpace_append (a b : List Char) (ha : ' ' ∉ a) :
    splitSpace (a ++ ' ' :: b) = a :: splitSpace b := by
  induction a with
  | nil => simp [splitSpace]
  | cons c cs ih =>
    have hc : c ≠ ' ' := fun h => ha (by simp [h])
    have hcs : ' ' ∉ cs := fun h => ha (by simp [h])
    have ih2 := ih hcs
    rw [List.cons_append, splitSpace, if_neg hc, ih2]

/-- A string without a space is its only segment. -/
theorem splitSpace_no_space (a : List Char) (ha : ' ' ∉ a) : splitSpace a = [a] := by
  induction a with
  | nil => rfl
  | cons c cs ih =>
    have hc : c ≠ ' ' := fun h => ha (by simp [h])
    have hcs : ' ' ∉ cs := fun h => ha (by simp [h])
    rw [splitSpace, if_neg hc, ih hcs]

/-- The token of a header `w t`, for a scheme word `w` without a space: the first segment of `t`
when that segment is not empty. -/
theorem bearerToken_scheme (w t : String) (hw : ' ' ∉ w.data) :
    bearerToken (some (w ++ " " ++ t)) =
      (match splitSpace t.data with
        | tok :: _ => if tok = [] then none else some (String.mk tok)
        | [] => none) := by
  have hdata : (w ++ " " ++ t).data = w.data ++ ' ' :: t.data := by
    simp [String.data_append]
  have hne : w ++ " " ++ t ≠ "" := by
    intro h
    have := congrArg String.data h
    rw [hdata] at this
    simp at this
  unfold bearerToken
  simp only [if_neg hne, hdata, splitSpace_append _ _ hw]
  cases hsp : splitSpace t.data with
  | nil => exact absurd hsp (splitSpace_ne_nil _)
  | cons tok rest => rfl

/-- The gate reads the Authorization header only through `bearerToken`: two requests that differ
in nothing but headers with the same token get the same responses, onward calls, attached user and
database. -/
theorem authenticateToken_reads_token_only (env : Env) (cx : Ctx) (x y : Exchange) (db : Db)
    (hu : x.user = y.user) (hr : x.responses = y.responses) (hn : x.next = y.next)
    (hb : bearerToken x.authorization = bearerToken y.authorization) :
    (authenticateToken env cx passOn x db).1.responses =
      (authenticateToken env cx passOn y db).1.responses ∧
    (authenticateToken env cx passOn x db).1.next =
      (authenticateToken env cx passOn y db).1.next ∧
    (authenticateToken env cx passOn x db).1.user =
      (authenticateToken env cx passOn y db).1.user ∧
    (authenticateToken env cx passOn x db).2 = (authenticateToken env cx passOn y db).2 := by
  unfold authenticateToken
  rw [hb]
  cases bearerToken y.authorization with
  | none => simp [Exchange.send, hu, hr, hn]
  | some t =>
    dsimp only
    cases verifyToken env cx.now t with
    | error e => simp [Exchange.send, hu, hr, hn]
    | ok d =>
      dsimp only
      rcases executeQuery cx (selectUsersById d.userId) db with ⟨res, db1⟩
      cases res with
      | none => simp [Exchange.send, hu, hr, hn]
      | some rows =>
        cases rows with
        | nil => simp [Exchange.send, hu, hr, hn]
        | cons u rest => simp [passOn, hr, hn]

/-- The same for `optionalAuth`. -/
theorem optionalAuth_reads_token_only (env : Env) (cx : Ctx) (x y : Exchange) (db : Db)
    (hu : x.user = y.user) (hr : x.responses = y.responses) (hn : x.next = y.next)
    (hb : bearerToken x.authorization = bearerToken y.authorization) :
    (optionalAuth env cx passOn x db).1.responses =
      (optionalAuth env cx passOn y db).1.responses ∧
    (optionalAuth env cx passOn x db).1.next = (optionalAuth env cx passOn y db).1.next ∧
    (optionalAuth env cx passOn x db).1.user = (optionalAuth env cx passOn y db).1.user ∧
    (optionalAuth env cx passOn x db).2 = (optionalAuth env cx passOn y db).2 := by
  unfold optionalAuth
  rw [hb]
  cases bearerToken y.authorization with
  | none => simp [passOn, hu, hr, hn]
  | some t =>
    dsimp only
    cases verifyToken env cx.now t with
    | error e => simp [passOn, hu, hr, hn]
    | ok d =>
      dsimp only
      rcases executeQuery cx (selectUsersById d.userId) db with ⟨res, db1⟩
      cases res with
      | none => simp [passOn, hu, hr, hn]
      | some rows =>
        cases rows with
        | nil => simp [passOn, hu, hr, hn]
        | cons u rest => simp [passOn, hr, hn]

/-- C19: bearer-token extraction ignores the authorization scheme. The token of a non-empty
header is the second element of the header split on single spaces, when that element is not empty.
So for every scheme word `s` (no space in it) and every `t`, the headers `s t` and `Bearer t` both
yield the first segment of `t`, which is `t` itself when `t` is not empty and has no space; it is
this token that `authenticateToken` verifies, and `authenticateToken` and `optionalAuth` treat two
requests that differ only in these headers alike. A header that is absent, empty, without a space,
or with an empty second segment (`w ` or `w  rest` with two spaces) yields no token, and a request
without a token is answered 401 `Access token required` by `authenticateToken`, under every fault
schedule. -/
theorem bearerToken_ignores_scheme (env : Env) (cx : Ctx) (s t : String) (x : Exchange)
    (db : Db) (hs : ' ' ∉ s.data) :
    (∀ h : String, h ≠ "" →
      bearerToken (some h) =
        (match splitSpace h.data with
          | _ :: tok :: _ => if tok = [] then none else some (String.mk tok)
          | _ => none)) ∧
    (bearerToken (some (s ++ " " ++ t)) =
        (match splitSpace t.data with
          | tok :: _ => if tok = [] then none else some (String.mk tok)
          | [] => none) ∧
      bearerToken (some ("Bearer " ++ t)) =
        (match splitSpace t.data with
          | tok :: _ => if tok = [] then none else some (String.mk tok)
          | [] => none)) ∧
    (t ≠ "" → ' ' ∉ t.data →
      bearerToken (some (s ++ " " ++ t)) = some t ∧
        bearerToken (some ("Bearer " ++ t)) = some t) ∧
    (t ≠ "" → ' ' ∉ t.data → env.jwtVerify t cx.now = none →
      (authenticateToken env cx passOn { x with authorization := some (s ++ " " ++ t) }
          db).1.responses = x.responses ++ [failure 403 "Invalid or expired token"]) ∧
    bearerToken (some (s ++ " " ++ t)) = bearerToken (some ("Bearer " ++ t)) ∧
    ((authenticateToken env cx passOn { x with authorization := some (s ++ " " ++ t) }
          db).1.responses =
        (authenticateToken env cx passOn { x with authorization := some ("Bearer " ++ t) }
          db).1.responses ∧
      (authenticateToken env cx passOn { x with authorization := some (s ++ " " ++ t) }
          db).1.next =
        (authenticateToken env cx passOn { x with authorization := some ("Bearer " ++ t) }
          db).1.next ∧
      (authenticateToken env cx passOn { x with authorization := some (s ++ " " ++ t) }
          db).1.user =
        (authenticateToken env cx passOn { x with authorization := some ("Bearer " ++ t) }
          db).1.user) ∧
    ((optionalAuth env cx passOn { x with authorization := some (s ++ " " ++ t) }
          db).1.next =
        (optionalAuth env cx passOn { x with authorization := some ("Bearer " ++ t) }
          db).1.next ∧
      (optionalAuth env cx passOn { x with authorization := some (s ++ " " ++ t) }
          db).1.user =
        (optionalAuth env cx passOn { x with authorization := some ("Bearer " ++ t) }
          db).1.user) ∧
    bearerToken none = none ∧
    bearerToken (some "") = none ∧
    (∀ h : String, ' ' ∉ h.data → bearerToken (some h) = none) ∧
    (∀ w : String, ' ' ∉ w.data → bearerToken (some (w ++ " ")) = none) ∧
    (∀ w rest : String, ' ' ∉ w.data → bearerToken (some (w ++ "  " ++ rest)) = none) ∧
    (bearerToken x.authorization = none →
      (authenticateToken env cx passOn x db).1.responses =
          x.responses ++ [failure 401 "Access token required"] ∧
        (authenticateToken env cx passOn x db).1.next = x.next) := by
  have hB : ' ' ∉ "Bearer".data := by decide
  have hB2 : ("Bearer " : String) = "Bearer" ++ " " := by decide
  have hS := bearerToken_scheme s t hs
  have hBr : bearerToken (some ("Bearer " ++ t)) =
      (match splitSpace t.data with
        | tok :: _ => if tok = [] then none else some (String.mk tok)
        | [] => none) := by
    rw [hB2]; exact bearerToken_scheme "Bearer" t hB
  have heq : bearerToken (some (s ++ " " ++ t)) = bearerToken (some ("Bearer " ++ t)) := by
    rw [hS, hBr]
  have hplain : t ≠ "" → ' ' ∉ t.data →
      (match splitSpace t.data with
        | tok :: _ => if tok = [] then none else some (String.mk tok)
        | [] => none) = some t := by
    intro hne hsp
    rw [splitSpace_no_space _ hsp]
    have hd : t.data ≠ [] := by
      intro h
      apply hne
      cases t
      simp only at h
      subst h
      rfl
    simp only [if_neg hd]
  have ha := authenticateToken_reads_token_only env cx
    { x with authorization := some (s ++ " " ++ t) }
    { x with authorization := some ("Bearer " ++ t) } db rfl rfl rfl heq
  have ho := optionalAuth_reads_token_only env cx
    { x with authorization := some (s ++ " " ++ t) }
    { x with authorization := some ("Bearer " ++ t) } db rfl rfl rfl heq
  refine ⟨?_, ⟨hS, hBr⟩, ?_, ?_, heq, ⟨ha.1, ha.2.1, ha.2.2.1⟩, ⟨ho.2.1, ho.2.2.1⟩, rfl, rfl,
    ?_, ?_, ?_, ?_⟩
  · intro h hne
    simp only [bearerToken, if_neg hne]
  · intro hne hsp
    exact ⟨by rw [hS]; exact hplain hne hsp, by rw [hBr]; exact hplain hne hsp⟩
  · intro hne hsp hv
    have hb : bearerToken (some (s ++ " " ++ t)) = some t := by
      rw [hS]; exact hplain hne hsp
    simp [authenticateToken, hb, verifyToken, hv, Exchange.send]
  · intro h hh
    simp only [bearerToken, splitSpace_no_space _ hh]
    split <;> rfl
  · intro w hw
    have := bearerToken_scheme w "" hw
    rw [String.append_empty] at this
    rw [this]
    rfl
  · intro w rest hw
    have h2 : w ++ "  " ++ rest = w ++ " " ++ (" " ++ rest) := by
      have h3 : ("  " : String) = " " ++ " " := by decide
      rw [h3, String.append_assoc, String.append_assoc, String.append_assoc]
    rw [h2, bearerToken_scheme w (" " ++ rest) hw]
    have hd : (" " ++ rest).data = ' ' :: rest.data := by simp [String.data_append]
    rw [hd, splitSpace, if_pos rfl]
    rfl
  · intro hb
    simp [authenticateToken, hb, Exchange.send]

/-- Witness of C19: the scheme word `Token` in place of `Bearer`; both headers yield the token
`access-1`, and a header with two spaces yields none. -/
theorem bearerToken_ignores_scheme_witness :
    ' ' ∉ "Token".data ∧
    (bearerToken (some ("Token" ++ " " ++ "access-1")) = some "access-1" ∧
      bearerToken (some ("Bearer " ++ "access-1")) = some "access-1") ∧
    bearerToken (some "Token access-1") = some "access-1" ∧
    bearerToken (some "Bearer a b") = some "a" ∧
    bearerToken (some "Bearer  access-1") = none :=
  ⟨by decide,
    (bearerToken_ignores_scheme demoEnv demoCtx "Token" "access-1" (Exchange.incoming none)
      (Db.fresh demoStore) (by decide)).2.2.1 (by decide) (by decide),
    by decide, by decide, by decide⟩

/-- The passing case of the gate: a bearer token that verifies, a served lookup and a first row
for the claimed id. -/
theorem authenticateToken_pass (env : Env) (cx : Ctx) (x : Exchange) (db : Db) (t : String)
    (d : Decoded) (u : UserRow)
    (hb : bearerToken x.authorization = some t) (hv : env.jwtVerify t cx.now = some d)
    (hq : cx.faults db.q = false)
    (hu : (db.store.users.filter (fun r => r.id == d.userId)).head? = some u) :
    authenticateToken env cx passOn x db =
      ({ x with user := some (u.select profileCols), next := x.next + 1 },
        { store := db.store, q := db.q + 1 }) := by
  cases hf : db.store.users.filter (fun r => r.id == d.userId) with
  | nil => rw [hf] at hu; cases hu
  | cons a rest =>
    rw [hf] at hu
    simp only [List.head?_cons, Option.some.injEq] at hu
    subst hu
    simp [authenticateToken, hb, verifyToken, hv, executeQuery, hq, selectUsersById, hf, passOn]

/-- C18: the gate does not tell refresh tokens from access tokens. For a stored user `u`, a token
made by `generateRefreshToken` from the id and email of `u`, carried as the bearer token, is
accepted by `authenticateToken` (user attached, control passed onward, no response) whenever it
verifies to the claims of `u` and the user lookup is served. This holds whatever the ledger holds,
and in particular on the store left by `removeRefreshToken` for that very token. -/
theorem refresh_token_passes_gate (env : Env) (cx cx2 : Ctx) (issuedAt : Nat) (u : UserRow)
    (s : Store) (x : Exchange) (d : Decoded)
    (hfirst : (s.users.filter (fun r => r.id == u.id)).head? = some u)
    (hhdr : bearerToken x.authorization = some (generateRefreshToken env issuedAt u.id u.email))
    (hver : env.jwtVerify (generateRefreshToken env issuedAt u.id u.email) cx.now = some d)
    (hclaims : d.userId = u.id)
    (hq : cx.faults 0 = false) :
    (∀ (ledger : List RefreshTokenRow),
      (authenticateToken env cx passOn x
          (Db.fresh { s with refresh_tokens := ledger })).1 =
        { x with user := some (u.select profileCols), next := x.next + 1 }) ∧
    (authenticateToken env cx passOn x (Db.fresh s)).1 =
      { x with user := some (u.select profileCols), next := x.next + 1 } ∧
    (authenticateToken env cx passOn x
        (Db.fresh (removeRefreshToken cx2 (generateRefreshToken env issuedAt u.id u.email)
          (Db.fresh s)).store)).1 =
      { x with user := some (u.select profileCols), next := x.next + 1 } := by
  have hany : ∀ s2 : Store, s2.users = s.users →
      (authenticateToken env cx passOn x (Db.fresh s2)).1 =
        { x with user := some (u.select profileCols), next := x.next + 1 } := by
    intro s2 hs2
    rw [authenticateToken_pass env cx x (Db.fresh s2) _ d u hhdr hver hq
      (by rw [hclaims]; show (s2.users.filter _).head? = _; rw [hs2]; exact hfirst)]
  refine ⟨fun ledger => hany _ rfl, hany s rfl, hany _ ?_⟩
  rcases removeRefreshToken_outcome cx2 (generateRefreshToken env issuedAt u.id u.email)
    (Db.fresh s) with ⟨h, -⟩ | ⟨h, -⟩ <;> rw [h] <;> rfl

/-- Witness of C18: the refresh token of the demo user as a bearer token, before and after its
revocation. -/
theorem refresh_token_passes_gate_witness :
    ((demoStore.users.filter (fun r => r.id == alice.id)).head? = some alice ∧
      bearerToken (Exchange.incoming (some "Bearer refresh-1")).authorization =
        some (generateRefreshToken demoEnv 0 alice.id alice.email) ∧
      demoEnv.jwtVerify (generateRefreshToken demoEnv 0 alice.id alice.email) demoCtx.now =
        some { userId := 1, email := "alice@example.com", iat := 0, exp := 5000 } ∧
      demoCtx.faults 0 = false) ∧
    (removeRefreshToken laterCtx "refresh-1" (Db.fresh demoStore)).store.refresh_tokens = [] ∧
    (authenticateToken demoEnv demoCtx passOn (Exchange.incoming (some "Bearer refresh-1"))
        (Db.fresh (removeRefreshToken laterCtx
          (generateRefreshToken demoEnv 0 alice.id alice.email)
          (Db.fresh demoStore)).store)).1 =
      { Exchange.incoming (some "Bearer refresh-1") with
        user := some (alice.select profileCols),
        next := (Exchange.incoming (some "Bearer refresh-1")).next + 1 } :=
  ⟨⟨by decide, by decide, by decide, rfl⟩, by decide,
    (refresh_token_passes_gate demoEnv demoCtx laterCtx 0 alice demoStore
      (Exchange.incoming (some "Bearer refresh-1"))
      { userId := 1, email := "alice@example.com", iat := 0, exp := 5000 }
      (by decide) (by decide) (by decide) rfl rfl).2.2⟩

/-- A served query moves the window of possible faults past it. -/
theorem faultBetween_step (cx : Ctx) (a b : Nat) (ha : cx.faults a = false)
    (h : faultBetween cx a b) : faultBetween cx (a + 1) b := by
  obtain ⟨k, hk1, hk2, hk3⟩ := h
  refine ⟨k, ?_, hk2, hk3⟩
  rcases Nat.eq_or_lt_of_le hk1 with h | h
  · subst h; rw [ha] at hk3; cases hk3
  · exact h

/-- No query, no fault. -/
theorem faultBetween_self (cx : Ctx) (a : Nat) : ¬ faultBetween cx a a := by
  rintro ⟨k, hk1, hk2, -⟩
  omega

/-- The outcomes of the gate on an incoming request, with the number of queries issued. -/
theorem gate_cases (env : Env) (cx : Ctx) (authorization : Option String) (s : Store) :
    authenticateToken env cx passOn (Exchange.incoming authorization) (Db.fresh s) =
        ((Exchange.incoming authorization).send (failure 401 "Access token required"),
          Db.fresh s) ∨
    authenticateToken env cx passOn (Exchange.incoming authorization) (Db.fresh s) =
        ((Exchange.incoming authorization).send (failure 403 "Invalid or expired token"),
          Db.fresh s) ∨
    (cx.faults 0 = true ∧
      authenticateToken env cx passOn (Exchange.incoming authorization) (Db.fresh s) =
        ((Exchange.incoming authorization).send (failure 403 "Invalid or expired token"),
          { store := s, q := 1 })) ∨
    (cx.faults 0 = false ∧
      authenticateToken env cx passOn (Exchange.incoming authorization) (Db.fresh s) =
        ((Exchange.incoming authorization).send (failure 401 "User not found"),
          { store := s, q := 1 })) ∨
    (cx.faults 0 = false ∧ ∃ t d u, bearerToken authorization = some t ∧
      env.jwtVerify t cx.now = some d ∧
      (s.users.filter (fun r => r.id == d.userId)).head? = some u ∧
      authenticateToken env cx passOn (Exchange.incoming authorization) (Db.fresh s) =
        ({ authorization := authorization, user := some (u.select profileCols),
           responses := [], next := 1 }, { store := s, q := 1 })) := by
  unfold authenticateToken verifyToken
  cases hb : bearerToken (Exchange.incoming authorization).authorization with
  | none => exact Or.inl rfl
  | some t =>
    dsimp only
    cases hv : env.jwtVerify t cx.now with
    | none => exact Or.inr (Or.inl rfl)
    | some d =>
      dsimp only
      by_cases hq : cx.faults 0 = true
      · refine Or.inr (Or.inr (Or.inl ⟨hq, ?_⟩))
        simp [executeQuery, Db.fresh, hq]
      · simp only [Bool.not_eq_true] at hq
        rw [executeQuery_ok cx (selectUsersById d.userId) (Db.fresh s) _ s hq rfl]
        simp only [Db.fresh]
        cases hf : s.users.filter (fun u => u.id == d.userId) with
        | nil => exact Or.inr (Or.inr (Or.inr (Or.inl ⟨hq, rfl⟩)))
        | cons u rest =>
          exact Or.inr (Or.inr (Or.inr (Or.inr ⟨hq, t, d, u, hb, hv, by rw [hf]; rfl, rfl⟩)))

/-- The lookup by a numeric JavaScript id is the lookup by that number. -/
theorem filter_id_value (users : List UserRow) (n : Nat) :
    users.filter (fun u => Val.num u.id == Val.num n) = users.filter (fun u => u.id == n) := by
  congr 1
  funext u
  by_cases h : u.id = n <;> simp [h]

/-- The id member of the row object the gate attaches. -/
theorem select_profile_id (u : UserRow) :
    (u.select profileCols).get "id" = some (Val.num u.id) := by
  simp [UserRow.select, profileCols, Obj.get, UserRow.col]

/-- The paths of the change-password handler for a request whose attached user has the numeric
id `n`: failed lookup, no row, wrong current password, failed update, success. -/
theorem changePassword_cases (env : Env) (cx : Ctx) (body : ChangePasswordBody) (x : Exchange)
    (db : Db) (reqUser : Obj) (n : Nat)
    (hx : x.user = some reqUser) (hid : reqUser.get "id" = some (Val.num n)) :
    (cx.faults db.q = true ∧
      changePassword env cx body x db =
        (failure 500 "Internal server error during password change",
          { store := db.store, q := db.q + 1 })) ∨
    (cx.faults db.q = false ∧ db.store.users.filter (fun r => r.id == n) = [] ∧
      changePassword env cx body x db =
        (failure 404 "User not found", { store := db.store, q := db.q + 1 })) ∨
    (cx.faults db.q = false ∧ ∃ user rest,
      db.store.users.filter (fun r => r.id == n) = user :: rest ∧
      env.bcryptCompare body.currentPassword user.password = false ∧
      changePassword env cx body x db =
        (failure 400 "Current password is incorrect", { store := db.store, q := db.q + 1 })) ∨
    (cx.faults db.q = false ∧ cx.faults (db.q + 1) = true ∧ ∃ user rest,
      db.store.users.filter (fun r => r.id == n) = user :: rest ∧
      env.bcryptCompare body.currentPassword user.password = true ∧
      changePassword env cx body x db =
        (failure 500 "Internal server error during password change",
          { store := db.store, q := db.q + 1 + 1 })) ∨
    (cx.faults db.q = false ∧ cx.faults (db.q + 1) = false ∧ ∃ user rest,
      db.store.users.filter (fun r => r.id == n) = user :: rest ∧
      env.bcryptCompare body.currentPassword user.password = true ∧
      changePassword env cx body x db =
        ({ status := 200,
           body := { success := true, message := some "Password changed successfully",
                     data := none } },
          { store :=
              { db.store with
                users := db.store.users.map (fun u =>
                  if Val.num u.id == Val.num n then
                    (if ({ u with
                            password := env.bcryptHash body.newPassword (saltRounds env) cx.salt,
                            updated_at := cx.now } : UserRow) = u then u
                     else { ({ u with
                            password := env.bcryptHash body.newPassword (saltRounds env) cx.salt,
                            updated_at := cx.now } : UserRow) with updated_at := cx.now })
                  else u) },
            q := db.q + 1 + 1 })) := by
  unfold changePassword
  rw [hx]
  dsimp only
  rw [hid]
  by_cases h0 : cx.faults db.q = true
  · left
    refine ⟨h0, ?_⟩
    simp [executeQuery, h0]
  · simp only [Bool.not_eq_true] at h0
    right
    rw [executeQuery_ok cx (selectUsersByIdValue (some (Val.num n))) db _ db.store h0 rfl]
    rw [filter_id_value]
    dsimp only
    cases hf : db.store.users.filter (fun r => r.id == n) with
    | nil => exact Or.inl ⟨h0, rfl, rfl⟩
    | cons user rest =>
      right
      dsimp only
      cases hc : env.bcryptCompare body.currentPassword user.password with
      | false => exact Or.inl ⟨h0, user, rest, rfl, hc, by simp⟩
      | true =>
        right
        simp only [Bool.true_eq_false, if_false]
        by_cases h1 : cx.faults (db.q + 1) = true
        · left
          refine ⟨h0, h1, user, rest, rfl, hc, ?_⟩
          simp [executeQuery, h1]
        · simp only [Bool.not_eq_true] at h1
          right
          refine ⟨h0, h1, user, rest, rfl, hc, ?_⟩
          rw [executeQuery_ok cx _ _ () _ h1 rfl]

/-- A gated route whose gate passes runs its handler on the request with the attached user, after
the one query of the gate, and sends the response of the handler. -/
theorem gated_pass (env : Env) (cx : Ctx) (handler : Exchange → Db → Response × Db)
    (authorization : Option String) (s : Store) (t : String) (d : Decoded) (u : UserRow)
    (hb : bearerToken authorization = some t) (hv : env.jwtVerify t cx.now = some d)
    (hq : cx.faults 0 = false)
    (hu : (s.users.filter (fun r => r.id == d.userId)).head? = some u) :
    gated env cx handler authorization s =
      ((Exchange.authenticated authorization u).send
          (handler (Exchange.authenticated authorization u) { store := s, q := 1 }).1,
        (handler (Exchange.authenticated authorization u) { store := s, q := 1 }).2) := by
  unfold gated
  rw [authenticateToken_pass env cx (Exchange.incoming authorization) (Db.fresh s) t d u hb hv hq
    hu]
  rfl

/-- The head of a lookup by id has that id. -/
theorem head_filter_id (users : List UserRow) (n : Nat) (u : UserRow)
    (hu : (users.filter (fun r => r.id == n)).head? = some u) : u.id = n := by
  have hmem : u ∈ users.filter (fun r => r.id == n) := List.mem_of_mem_head? hu
  simpa using (List.mem_filter.mp hmem).2

/-- C16: for an authenticated change-password request of an existing user `u` (the bearer token
verifies and `u` is the row of the claimed id), with the queries of the request served: the
response is 400 `Current password is incorrect` exactly when `currentPassword` does not match the
stored hash, and then the store is unchanged; when it matches, the response is 200 and afterwards
every row with the id of `u` holds the hash of `newPassword` (id and email kept), every other row is
as it was, and the ledger is as it was. -/
theorem changePassword_checks_current (env : Env) (cx : Ctx) (authorization : Option String)
    (body : ChangePasswordBody) (s : Store) (t : String) (d : Decoded) (u : UserRow)
    (hb : bearerToken authorization = some t) (hv : env.jwtVerify t cx.now = some d)
    (hu : (s.users.filter (fun r => r.id == d.userId)).head? = some u)
    (hq : cx.faults 0 = false ∧ cx.faults 1 = false ∧ cx.faults 2 = false) :
    ((gated env cx (fun x db => changePassword env cx body x db) authorization s).1.responses =
        [failure 400 "Current password is incorrect"] ↔
      env.bcryptCompare body.currentPassword u.password = false) ∧
    (env.bcryptCompare body.currentPassword u.password = false →
      (gated env cx (fun x db => changePassword env cx body x db) authorization s).2.store = s) ∧
    (env.bcryptCompare body.currentPassword u.password = true →
      (gated env cx (fun x db => changePassword env cx body x db) authorization s).1.responses =
        [{ status := 200,
           body := { success := true, message := some "Password changed successfully",
                     data := none } }] ∧
      List.Forall₂
        (fun old new =>
          (old.id = u.id →
            new.password = env.bcryptHash body.newPassword (saltRounds env) cx.salt ∧
              new.id = old.id ∧ new.email = old.email) ∧
          (old.id ≠ u.id → new = old))
        s.users
        (gated env cx (fun x db => changePassword env cx body x db) authorization
          s).2.store.users ∧
      (gated env cx (fun x db => changePassword env cx body x db) authorization
          s).2.store.refresh_tokens = s.refresh_tokens) := by
  have hid := head_filter_id s.users d.userId u hu
  have hu2 : (s.users.filter (fun r => r.id == u.id)).head? = some u := by rw [hid]; exact hu
  rw [gated_pass env cx _ authorization s t d u hb hv hq.1 hu]
  dsimp only
  rcases changePassword_cases env cx body (Exchange.authenticated authorization u)
      { store := s, q := 1 } (u.select profileCols) u.id rfl (select_profile_id u)
    with ⟨h0, -⟩ | ⟨-, hnil, -⟩ | ⟨-, user, rest, hf, hc, e⟩ | ⟨-, h1, -⟩ |
      ⟨-, -, user, rest, hf, hc, e⟩
  · rw [hq.2.1] at h0; cases h0
  · dsimp only at hnil; rw [hnil] at hu2; cases hu2
  · dsimp only at hf
    rw [hf] at hu2
    simp only [List.head?_cons, Option.some.injEq] at hu2
    subst hu2
    rw [e]
    refine ⟨⟨fun _ => hc, fun _ => rfl⟩, fun _ => rfl, fun h => ?_⟩
    rw [hc] at h; cases h
  · rw [hq.2.2] at h1; cases h1
  · dsimp only at hf
    rw [hf] at hu2
    simp only [List.head?_cons, Option.some.injEq] at hu2
    subst hu2
    rw [e]
    refine ⟨⟨fun h => ?_, fun h => ?_⟩, fun h => ?_, fun _ => ⟨rfl, ?_, rfl⟩⟩
    · simp [failure, Exchange.send, Exchange.authenticated] at h
    · rw [hc] at h; cases h
    · rw [hc] at h; cases h
    · dsimp only
      rw [List.forall₂_map_right_iff, List.forall₂_same]
      intro r _
      by_cases hr : r.id = user.id
      · have hbeq : (Val.num r.id == Val.num user.id) = true := by simp [hr]
        rw [if_pos hbeq]
        refine ⟨fun _ => ?_, fun h => absurd hr h⟩
        split
        · rename_i heq
          exact ⟨by rw [← heq], rfl, rfl⟩
        · exact ⟨rfl, rfl, rfl⟩
      · have hne : (Val.num r.id == Val.num user.id) = false := by simp [hr]
        simp [hne, hr]

/-- Witness of C16: the demo user sends a wrong current password. -/
theorem changePassword_checks_current_witness :
    (bearerToken (some "Bearer access-1") = some "access-1" ∧
      demoEnv.jwtVerify "access-1" demoCtx.now =
        some { userId := 1, email := "alice@example.com", iat := 0, exp := 5000 } ∧
      (demoStore.users.filter (fun r => r.id == 1)).head? = some alice ∧
      (demoCtx.faults 0 = false ∧ demoCtx.faults 1 = false ∧ demoCtx.faults 2 = false)) ∧
    (gated demoEnv demoCtx
        (fun x db => changePassword demoEnv demoCtx
          { currentPassword := "Wrong1", newPassword := "Fresh3" } x db)
        (some "Bearer access-1") demoStore).1.responses =
      [failure 400 "Current password is incorrect"] :=
  ⟨⟨by decide, by decide, by decide, rfl, rfl, rfl⟩,
    (changePassword_checks_current demoEnv demoCtx (some "Bearer access-1")
      { currentPassword := "Wrong1", newPassword := "Fresh3" } demoStore "access-1"
      { userId := 1, email := "alice@example.com", iat := 0, exp := 5000 } alice
      (by decide) (by decide) (by decide) ⟨rfl, rfl, rfl⟩).1.mpr (by decide)⟩

/-- None of the column lists selected for a response or for `req.user` yields a `password` member,
and deleting `password` from the row object of the login SELECT removes it. -/
theorem select_no_password (u : UserRow) :
    (u.select profileCols).has "password" = false ∧
    (u.select registerCols).has "password" = false ∧
    (u.select getProfileCols).has "password" = false ∧
    (u.select updateProfileCols).has "password" = false ∧
    ((u.select loginCols).delete "password").has "password" = false ∧
    (u.select loginCols).has "password" = true := by
  refine ⟨?_, ?_, ?_, ?_, ?_, ?_⟩ <;>
    simp [UserRow.select, profileCols, registerCols, getProfileCols, updateProfileCols, loginCols,
      Obj.has, Obj.delete]

/-- A handler that answers with the fault response, which carries no data, has the common
effect as soon as it keeps the pairing. -/
theorem Effect_fault (cx : Ctx) (onFault : Response) (db db2 : Db)
    (hdata : onFault.body.data = none)
    (hp : Paired db.store → Paired db2.store) : Effect cx onFault db (onFault, db2) := by
  refine ⟨hp, fun _ => rfl, ?_⟩
  intro d o hd
  rw [hdata] at hd
  cases hd

/-- A handler that ends without a failed query has the common effect as soon as it keeps the
pairing and its user object has no password. -/
theorem Effect_served (cx : Ctx) (onFault r : Response) (db db2 : Db)
    (hp : Paired db.store → Paired db2.store)
    (hnf : ¬ faultBetween cx db.q db2.q)
    (hdata : ∀ d o, r.body.data = some d → d.user = some o → o.has "password" = false) :
    Effect cx onFault db (r, db2) :=
  ⟨hp, fun h => absurd h hnf, hdata⟩

/-- A response without data has no user object. -/
theorem no_data_no_user (r : Response) (h : r.body.data = none) :
    ∀ d o, r.body.data = some d → d.user = some o → o.has "password" = false := by
  intro d o hd
  rw [h] at hd
  cases hd

/-- Pairing only looks at the users table. -/
theorem Paired_of_users (s s2 : Store) (h : s2.users = s.users) (hp : Paired s) : Paired s2 := by
  intro u hu
  rw [h] at hu
  exact hp u hu

/-- The insert of a new user keeps the pairing: the new row has neither token nor expiry. -/
theorem Paired_insertUser (now : Nat) (email password firstName lastName : String)
    (phoneNumber : Option String) (verificationToken : String) (s s2 : Store) (a : Nat)
    (h : insertUser now email password firstName lastName phoneNumber verificationToken s =
      some (a, s2)) (hp : Paired s) : Paired s2 := by
  unfold insertUser at h
  split at h
  · cases h
  · simp only [Option.some.injEq, Prod.mk.injEq] at h
    obtain ⟨-, rfl⟩ := h
    intro u hu
    simp only [List.mem_append, List.mem_singleton] at hu
    rcases hu with hu | rfl
    · exact hp u hu
    · simp [newUser]

/-- An UPDATE by id keeps the pairing when its assignment does. -/
theorem Paired_update (now id : Nat) (assign : UserRow → UserRow) (s s2 : Store) (a : Unit)
    (hassign : ∀ u : UserRow,
      (u.password_reset_token = none ↔ u.password_reset_expires = none) →
      ((assign u).password_reset_token = none ↔ (assign u).password_reset_expires = none))
    (h : updateUsersById now id assign s = some (a, s2)) (hp : Paired s) : Paired s2 := by
  simp only [updateUsersById, Option.some.injEq, Prod.mk.injEq] at h
  obtain ⟨-, rfl⟩ := h
  intro r hr
  simp only [List.mem_map] at hr
  obtain ⟨u, hu, rfl⟩ := hr
  split
  · split
    · exact hp u hu
    · exact hassign u (hp u hu)
  · exact hp u hu

/-- An UPDATE by a JavaScript id keeps the pairing when its assignment does. -/
theorem Paired_updateValue (now : Nat) (id : Option Val) (assign : UserRow → UserRow)
    (s s2 : Store) (a : Unit)
    (hassign : ∀ u : UserRow,
      (u.password_reset_token = none ↔ u.password_reset_expires = none) →
      ((assign u).password_reset_token = none ↔ (assign u).password_reset_expires = none))
    (h : updateUsersByIdValue now id assign s = some (a, s2)) (hp : Paired s) : Paired s2 := by
  unfold updateUsersByIdValue at h
  split at h
  · cases h
  · simp only [Option.some.injEq, Prod.mk.injEq] at h
    obtain ⟨-, rfl⟩ := h
    intro r hr
    simp only [List.mem_map] at hr
    obtain ⟨u, hu, rfl⟩ := hr
    split
    · split
      · exact hp u hu
      · exact hassign u (hp u hu)
    · exact hp u hu

/-- The insert of a ledger row leaves the users table alone. -/
theorem insertRefreshToken_users (now userId : Nat) (token : String) (expiresAt : Nat)
    (s s2 : Store) (a : Unit) (h : insertRefreshToken now userId token expiresAt s = some (a, s2)) :
    s2.users = s.users := by
  unfold insertRefreshToken at h
  split at h
  · simp only [Option.some.injEq, Prod.mk.injEq] at h
    obtain ⟨-, rfl⟩ := h
    rfl
  · cases h

/-- The register handler has the common effect. -/
theorem register_effect (env : Env) (cx : Ctx) (body : RegisterBody) (db : Db) :
    Effect cx (failure 500 "Internal server error during registration") db
      (register env cx body db) := by
  unfold register
  rcases executeQuery_cases cx (selectUsersByEmail body.email) db with e | ⟨a1, s1, h0, hs1, e⟩
  · rw [e]; exact Effect_fault _ _ _ _ rfl (fun h => h)
  rw [e]
  simp only [selectUsersByEmail, Option.some.injEq, Prod.mk.injEq] at hs1
  obtain ⟨rfl, rfl⟩ := hs1
  dsimp only
  split
  · refine Effect_served _ _ _ _ _ (fun h => h) ?_ (no_data_no_user _ rfl)
    rintro ⟨k, h1, h2, h3⟩
    have hk : k = db.q := by dsimp only at h2; omega
    rw [hk, h0] at h3; cases h3
  rcases executeQuery_cases cx (insertUser cx.now body.email
      (env.bcryptHash body.password (saltRounds env) cx.salt) body.firstName body.lastName
      (orNull body.phoneNumber) cx.randomHex) { store := db.store, q := db.q + 1 }
    with e | ⟨a2, s2, h1, hs2, e⟩
  · rw [e]; exact Effect_fault _ _ _ _ rfl (fun h => h)
  rw [e]
  dsimp only at h1 hs2 ⊢
  have hp2 : Paired db.store → Paired s2 := Paired_insertUser _ _ _ _ _ _ _ _ _ _ hs2
  unfold storeRefreshToken
  rcases executeQuery_cases cx (insertRefreshToken cx.now a2
      (generateRefreshToken env cx.now a2 body.email) (env.addLocalDays cx.now 30))
      { store := s2, q := db.q + 1 + 1 } with e | ⟨a3, s3, h2, hs3, e⟩
  · rw [e]; exact Effect_fault _ _ _ _ rfl hp2
  rw [e]
  dsimp only at h2 hs3 ⊢
  have hp3 : Paired db.store → Paired s3 := fun h =>
    Paired_of_users s2 s3 (insertRefreshToken_users _ _ _ _ _ _ _ hs3) (hp2 h)
  rcases executeQuery_cases cx (selectUsersById a2) { store := s3, q := db.q + 1 + 1 + 1 }
    with e | ⟨a4, s4, h3, hs4, e⟩
  · rw [e]; exact Effect_fault _ _ _ _ rfl hp3
  rw [e]
  simp only [selectUsersById, Option.some.injEq, Prod.mk.injEq] at hs4
  obtain ⟨rfl, rfl⟩ := hs4
  dsimp only at h3 ⊢
  refine Effect_served _ _ _ _ _ hp3 ?_ ?_
  · rintro ⟨k, hk1, hk2, hk3⟩
    dsimp only at hk2
    have hk : k = db.q ∨ k = db.q + 1 ∨ k = db.q + 1 + 1 ∨ k = db.q + 1 + 1 + 1 := by omega
    rcases hk with rfl | rfl | rfl | rfl
    · rw [h0] at hk3; cases hk3
    · rw [h1] at hk3; cases hk3
    · rw [h2] at hk3; cases hk3
    · rw [h3] at hk3; cases hk3
  · intro d o hd ho
    simp only [Option.some.injEq] at hd
    subst hd
    dsimp only at ho
    cases hh : (s3.users.filter (fun u => u.id == a2)).head? with
    | none => rw [hh] at ho; cases ho
    | some u =>
      rw [hh] at ho
      simp only [Option.map_some', Option.some.injEq] at ho
      subst ho
      exact (select_no_password u).2.1

/-- The login handler has the common effect. -/
theorem login_effect (env : Env) (cx : Ctx) (body : LoginBody) (db : Db) :
    Effect cx (failure 500 "Internal server error during login") db (login env cx body db) := by
  unfold login
  rcases executeQuery_cases cx (selectUsersByEmail body.email) db with e | ⟨a1, s1, h0, hs1, e⟩
  · rw [e]; exact Effect_fault _ _ _ _ rfl (fun h => h)
  rw [e]
  simp only [selectUsersByEmail, Option.some.injEq, Prod.mk.injEq] at hs1
  obtain ⟨rfl, rfl⟩ := hs1
  dsimp only
  have hnf1 : ¬ faultBetween cx db.q (db.q + 1) := by
    rintro ⟨k, h1, h2, h3⟩
    have hk : k = db.q := by omega
    rw [hk, h0] at h3; cases h3
  split
  · exact Effect_served _ _ _ _ _ (fun h => h) hnf1 (no_data_no_user _ rfl)
  rename_i user rest hf
  split
  · exact Effect_served _ _ _ _ _ (fun h => h) hnf1 (no_data_no_user _ rfl)
  rcases executeQuery_cases cx (updateUsersById cx.now user.id
      (fun u => { u with last_login_at := some cx.now })) { store := db.store, q := db.q + 1 }
    with e | ⟨a2, s2, h1, hs2, e⟩
  · rw [e]; exact Effect_fault _ _ _ _ rfl (fun h => h)
  rw [e]
  dsimp only at h1 hs2 ⊢
  have hp2 : Paired db.store → Paired s2 :=
    Paired_update cx.now user.id (fun u => { u with last_login_at := some cx.now }) db.store s2
      a2 (fun _ h => h) hs2
  unfold storeRefreshToken
  rcases executeQuery_cases cx (insertRefreshToken cx.now user.id
      (generateRefreshToken env cx.now user.id user.email) (env.addLocalDays cx.now 30))
      { store := s2, q := db.q + 1 + 1 } with e | ⟨a3, s3, h2, hs3, e⟩
  · rw [e]; exact Effect_fault _ _ _ _ rfl hp2
  rw [e]
  dsimp only at h2 hs3 ⊢
  refine Effect_served _ _ _ _ _
    (fun h => Paired_of_users s2 s3 (insertRefreshToken_users _ _ _ _ _ _ _ hs3) (hp2 h)) ?_ ?_
  · rintro ⟨k, hk1, hk2, hk3⟩
    dsimp only at hk2
    have hk : k = db.q ∨ k = db.q + 1 ∨ k = db.q + 1 + 1 := by omega
    rcases hk with rfl | rfl | rfl
    · rw [h0] at hk3; cases hk3
    · rw [h1] at hk3; cases hk3
    · rw [h2] at hk3; cases hk3
  · intro d o hd ho
    simp only [Option.some.injEq] at hd
    subst hd
    simp only [Option.some.injEq] at ho
    subst ho
    exact (select_no_password user).2.2.2.2.1

/-- The refresh handler has the common effect, with 401 as its answer to a storage fault. -/
theorem refreshToken_effect (env : Env) (cx : Ctx) (token : String) (db : Db) :
    Effect cx (failure 401 "Invalid or expired refresh token") db
      (refreshToken env cx token db) := by
  unfold refreshToken validateRefreshToken
  cases verifyToken env cx.now token with
  | error e =>
    exact Effect_served _ _ _ _ _ (fun h => h) (faultBetween_self cx db.q) (no_data_no_user _ rfl)
  | ok d =>
    dsimp only
    rcases executeQuery_cases cx (selectLiveRefreshTokens cx.now token) db
      with e | ⟨a1, s1, h0, hs1, e⟩
    · rw [e]; exact Effect_fault _ _ _ _ rfl (fun h => h)
    rw [e]
    simp only [selectLiveRefreshTokens, Option.some.injEq, Prod.mk.injEq] at hs1
    obtain ⟨rfl, rfl⟩ := hs1
    dsimp only
    have hnf1 : ¬ faultBetween cx db.q (db.q + 1) := by
      rintro ⟨k, h1, h2, h3⟩
      have hk : k = db.q := by omega
      rw [hk, h0] at h3; cases h3
    by_cases hlen : (db.store.refresh_tokens.filter
        (fun r => r.token == token && decide (cx.now < r.expires_at))).length = 0
    · rw [if_pos hlen]
      exact Effect_served _ _ _ _ _ (fun h => h) hnf1 (no_data_no_user _ rfl)
    rw [if_neg hlen]
    dsimp only
    rcases executeQuery_cases cx (selectUsersById d.userId) { store := db.store, q := db.q + 1 }
      with e | ⟨a2, s2, h1, hs2, e⟩
    · rw [e]; exact Effect_fault _ _ _ _ rfl (fun h => h)
    rw [e]
    simp only [selectUsersById, Option.some.injEq, Prod.mk.injEq] at hs2
    obtain ⟨rfl, rfl⟩ := hs2
    dsimp only at h1 ⊢
    have hnf2 : ¬ faultBetween cx db.q (db.q + 1 + 1) := by
      rintro ⟨k, hk1, hk2, hk3⟩
      have hk : k = db.q ∨ k = db.q + 1 := by omega
      rcases hk with rfl | rfl
      · rw [h0] at hk3; cases hk3
      · rw [h1] at hk3; cases hk3
    split
    · exact Effect_served _ _ _ _ _ (fun h => h) hnf2 (no_data_no_user _ rfl)
    · refine Effect_served _ _ _ _ _ (fun h => h) hnf2 ?_
      intro d2 o hd ho
      simp only [Option.some.injEq] at hd
      subst hd
      simp only [Option.some.injEq] at ho
      subst ho
      exact (select_no_password _).1

/-- One served query leaves no room for a fault. -/
theorem no_fault_one (cx : Ctx) (a : Nat) (h0 : cx.faults a = false) :
    ¬ faultBetween cx a (a + 1) := by
  rintro ⟨k, h1, h2, h3⟩
  have hk : k = a := by omega
  rw [hk, h0] at h3; cases h3

/-- Two served queries leave no room for a fault. -/
theorem no_fault_two (cx : Ctx) (a : Nat) (h0 : cx.faults a = false)
    (h1 : cx.faults (a + 1) = false) : ¬ faultBetween cx a (a + 1 + 1) := by
  rintro ⟨k, hk1, hk2, hk3⟩
  have hk : k = a ∨ k = a + 1 := by omega
  rcases hk with rfl | rfl
  · rw [h0] at hk3; cases hk3
  · rw [h1] at hk3; cases hk3

/-- The logout handler always answers 200, also when its DELETE failed, and leaves the users table
alone. -/
theorem logout_effect (cx : Ctx) (token : Option String) (db : Db) :
    Effect cx logoutSuccessful db (logout cx token db) ∧
    (logout cx token db).1 = logoutSuccessful ∧
    (logout cx token db).2.store.users = db.store.users := by
  have husers : (logout cx token db).2.store.users = db.store.users := by
    unfold logout
    dsimp only
    split
    · rfl
    · split
      · rfl
      · rename_i t _
        rcases removeRefreshToken_outcome cx t db with ⟨h, -⟩ | ⟨h, -⟩ <;> rw [h]
  exact ⟨⟨fun h => Paired_of_users _ _ husers h, fun _ => rfl, no_data_no_user _ rfl⟩, rfl, husers⟩

/-- The forgot-password handler has the common effect. -/
theorem forgotPassword_effect (env : Env) (cx : Ctx) (email : String) (db : Db) :
    Effect cx (failure 500 "Internal server error") db (forgotPassword env cx email db) := by
  unfold forgotPassword
  rcases executeQuery_cases cx (selectUsersByEmail email) db with e | ⟨a1, s1, h0, hs1, e⟩
  · rw [e]; exact Effect_fault _ _ _ _ rfl (fun h => h)
  rw [e]
  simp only [selectUsersByEmail, Option.some.injEq, Prod.mk.injEq] at hs1
  obtain ⟨rfl, rfl⟩ := hs1
  dsimp only
  split
  · exact Effect_served _ _ _ _ _ (fun h => h) (no_fault_one cx db.q h0) (no_data_no_user _ rfl)
  rename_i user rest hf
  rcases executeQuery_cases cx (updateUsersById cx.now user.id (fun u =>
      { u with password_reset_token := some cx.randomHex,
               password_reset_expires := some (env.addLocalHours cx.now 1) }))
      { store := db.store, q := db.q + 1 } with e | ⟨a2, s2, h1, hs2, e⟩
  · rw [e]; exact Effect_fault _ _ _ _ rfl (fun h => h)
  rw [e]
  dsimp only at h1 hs2 ⊢
  refine Effect_served _ _ _ _ _ ?_ (no_fault_two cx db.q h0 h1) (no_data_no_user _ rfl)
  exact Paired_update cx.now user.id (fun u =>
      { u with password_reset_token := some cx.randomHex,
               password_reset_expires := some (env.addLocalHours cx.now 1) }) db.store s2 a2
    (fun _ _ => by simp) hs2

/-- The reset-password handler has the common effect and never touches the ledger. -/
theorem resetPassword_effect (env : Env) (cx : Ctx) (token password : String) (db : Db) :
    Effect cx (failure 500 "Internal server error during password reset") db
      (resetPassword env cx token password db) ∧
    (resetPassword env cx token password db).2.store.refresh_tokens =
      db.store.refresh_tokens := by
  unfold resetPassword
  rcases executeQuery_cases cx (selectUsersByResetToken cx.now token) db
    with e | ⟨a1, s1, h0, hs1, e⟩
  · rw [e]; exact ⟨Effect_fault _ _ _ _ rfl (fun h => h), rfl⟩
  rw [e]
  simp only [selectUsersByResetToken, Option.some.injEq, Prod.mk.injEq] at hs1
  obtain ⟨rfl, rfl⟩ := hs1
  dsimp only
  split
  · exact ⟨Effect_served _ _ _ _ _ (fun h => h) (no_fault_one cx db.q h0)
      (no_data_no_user _ rfl), rfl⟩
  rename_i user rest hf
  rcases executeQuery_cases cx (updateUsersById cx.now user.id (fun u =>
      { u with password := env.bcryptHash password (saltRounds env) cx.salt,
               password_reset_token := none, password_reset_expires := none,
               updated_at := cx.now }))
      { store := db.store, q := db.q + 1 } with e | ⟨a2, s2, h1, hs2, e⟩
  · rw [e]; exact ⟨Effect_fault _ _ _ _ rfl (fun h => h), rfl⟩
  rw [e]
  dsimp only at h1 hs2 ⊢
  refine ⟨Effect_served _ _ _ _ _ ?_ (no_fault_two cx db.q h0 h1) (no_data_no_user _ rfl), ?_⟩
  · exact Paired_update cx.now user.id (fun u =>
        { u with password := env.bcryptHash password (saltRounds env) cx.salt,
                 password_reset_token := none, password_reset_expires := none,
                 updated_at := cx.now }) db.store s2 a2
      (fun _ _ => by simp) hs2
  · simp only [updateUsersById, Option.some.injEq, Prod.mk.injEq] at hs2
    obtain ⟨-, rfl⟩ := hs2
    rfl

/-- An UPDATE by a JavaScript id leaves the ledger alone. -/
theorem updateUsersByIdValue_ledger (now : Nat) (id : Option Val) (assign : UserRow → UserRow)
    (s s2 : Store) (a : Unit) (h : updateUsersByIdValue now id assign s = some (a, s2)) :
    s2.refresh_tokens = s.refresh_tokens := by
  unfold updateUsersByIdValue at h
  split at h
  · cases h
  · simp only [Option.some.injEq, Prod.mk.injEq] at h
    obtain ⟨-, rfl⟩ := h
    rfl

/-- A lookup by a JavaScript id leaves the store alone. -/
theorem selectUsersByIdValue_store (id : Option Val) (s s2 : Store) (a : List UserRow)
    (h : selectUsersByIdValue id s = some (a, s2)) :
    s2 = s ∧ ∀ u ∈ a, u ∈ s.users := by
  unfold selectUsersByIdValue at h
  split at h
  · cases h
  · simp only [Option.some.injEq, Prod.mk.injEq] at h
    obtain ⟨rfl, rfl⟩ := h
    exact ⟨rfl, fun u hu => (List.mem_filter.mp hu).1⟩

/-- The profile handler has the common effect and leaves the store alone. -/
theorem getProfile_effect (cx : Ctx) (x : Exchange) (db : Db) :
    Effect cx (failure 500 "Internal server error") db (getProfile cx x db) := by
  unfold getProfile
  split
  · exact Effect_fault _ _ _ _ rfl (fun h => h)
  rename_i reqUser _
  rcases executeQuery_cases cx (selectUsersByIdValue (reqUser.get "id")) db
    with e | ⟨a1, s1, h0, hs1, e⟩
  · rw [e]; exact Effect_fault _ _ _ _ rfl (fun h => h)
  rw [e]
  obtain ⟨rfl, -⟩ := selectUsersByIdValue_store _ _ _ _ hs1
  dsimp only
  split
  · exact Effect_served _ _ _ _ _ (fun h => h) (no_fault_one cx db.q h0) (no_data_no_user _ rfl)
  · refine Effect_served _ _ _ _ _ (fun h => h) (no_fault_one cx db.q h0) ?_
    intro d o hd ho
    simp only [Option.some.injEq] at hd
    subst hd
    simp only [Option.some.injEq] at ho
    subst ho
    exact (select_no_password _).2.2.1

/-- The profile-update handler has the common effect. -/
theorem updateProfile_effect (cx : Ctx) (body : UpdateProfileBody) (x : Exchange) (db : Db) :
    Effect cx (failure 500 "Internal server error during profile update") db
      (updateProfile cx body x db) := by
  unfold updateProfile
  split
  · exact Effect_fault _ _ _ _ rfl (fun h => h)
  rename_i reqUser _
  split
  · exact Effect_served _ _ _ _ _ (fun h => h) (faultBetween_self cx db.q)
      (no_data_no_user _ rfl)
  rcases executeQuery_cases cx
      (updateUsersByIdValue cx.now (reqUser.get "id") (profileAssign cx.now body)) db
    with e | ⟨a1, s1, h0, hs1, e⟩
  · rw [e]; exact Effect_fault _ _ _ _ rfl (fun h => h)
  rw [e]
  dsimp only
  have hp1 : Paired db.store → Paired s1 :=
    Paired_updateValue cx.now (reqUser.get "id") (profileAssign cx.now body) db.store s1 a1
      (fun _ h => by simpa [profileAssign] using h) hs1
  rcases executeQuery_cases cx (selectUsersByIdValue (reqUser.get "id"))
      { store := s1, q := db.q + 1 } with e | ⟨a2, s2, h1, hs2, e⟩
  · rw [e]; exact Effect_fault _ _ _ _ rfl hp1
  rw [e]
  dsimp only at h1 hs2 ⊢
  obtain ⟨rfl, -⟩ := selectUsersByIdValue_store _ _ _ _ hs2
  refine Effect_served _ _ _ _ _ hp1 (no_fault_two cx db.q h0 h1) ?_
  intro d o hd ho
  simp only [Option.some.injEq] at hd
  subst hd
  dsimp only at ho
  cases hh : a2.head? with
  | none => rw [hh] at ho; cases ho
  | some u =>
    rw [hh] at ho
    simp only [Option.map_some', Option.some.injEq] at ho
    subst ho
    exact (select_no_password u).2.2.2.1

/-- The change-password handler has the common effect and never touches the ledger. -/
theorem changePassword_effect (env : Env) (cx : Ctx) (body : ChangePasswordBody) (x : Exchange)
    (db : Db) :
    Effect cx (failure 500 "Internal server error during password change") db
      (changePassword env cx body x db) ∧
    (changePassword env cx body x db).2.store.refresh_tokens = db.store.refresh_tokens := by
  unfold changePassword
  split
  · exact ⟨Effect_fault _ _ _ _ rfl (fun h => h), rfl⟩
  rename_i reqUser _
  rcases executeQuery_cases cx (selectUsersByIdValue (reqUser.get "id")) db
    with e | ⟨a1, s1, h0, hs1, e⟩
  · rw [e]; exact ⟨Effect_fault _ _ _ _ rfl (fun h => h), rfl⟩
  rw [e]
  obtain ⟨rfl, -⟩ := selectUsersByIdValue_store _ _ _ _ hs1
  dsimp only
  split
  · exact ⟨Effect_served _ _ _ _ _ (fun h => h) (no_fault_one cx db.q h0)
      (no_data_no_user _ rfl), rfl⟩
  rename_i user rest
  split
  · exact ⟨Effect_served _ _ _ _ _ (fun h => h) (no_fault_one cx db.q h0)
      (no_data_no_user _ rfl), rfl⟩
  rcases executeQuery_cases cx (updateUsersByIdValue cx.now (reqUser.get "id") (fun u =>
      { u with password := env.bcryptHash body.newPassword (saltRounds env) cx.salt,
               updated_at := cx.now })) { store := db.store, q := db.q + 1 }
    with e | ⟨a2, s2, h1, hs2, e⟩
  · rw [e]; exact ⟨Effect_fault _ _ _ _ rfl (fun h => h), rfl⟩
  rw [e]
  dsimp only at h1 hs2 ⊢
  refine ⟨Effect_served _ _ _ _ _ ?_ (no_fault_two cx db.q h0 h1) (no_data_no_user _ rfl), ?_⟩
  · exact Paired_updateValue cx.now (reqUser.get "id") (fun u =>
        { u with password := env.bcryptHash body.newPassword (saltRounds env) cx.salt,
                 updated_at := cx.now }) db.store s2 a2 (fun _ h => h) hs2
  · exact updateUsersByIdValue_ledger _ _ _ _ _ _ hs2

/-- A gated route sends exactly one response. Its user object has no password; if a query of the
request hit a storage fault, the response is 403 when it was the lookup of the gate and the fault
response of the handler otherwise; the pairing is kept. -/
theorem gated_effect (env : Env) (cx : Ctx) (handler : Exchange → Db → Response × Db)
    (onFault : Response) (authorization : Option String) (s : Store)
    (hh : ∀ x db, Effect cx onFault db (handler x db)) :
    (∃ r, (gated env cx handler authorization s).1.responses = [r] ∧
      (∀ d o, r.body.data = some d → d.user = some o → o.has "password" = false) ∧
      (faultBetween cx 0 (gated env cx handler authorization s).2.q →
        (cx.faults 0 = true ∧ r = failure 403 "Invalid or expired token") ∨
        (cx.faults 0 = false ∧ r = onFault))) ∧
    (Paired s → Paired (gated env cx handler authorization s).2.store) := by
  unfold gated
  rcases gate_cases env cx authorization s with e | e | ⟨h0, e⟩ | ⟨h0, e⟩ |
    ⟨h0, t, d, u, -, -, -, e⟩
  · rw [e]
    refine ⟨⟨_, rfl, no_data_no_user _ rfl, fun h => absurd h (faultBetween_self cx 0)⟩,
      fun h => h⟩
  · rw [e]
    refine ⟨⟨_, rfl, no_data_no_user _ rfl, fun h => absurd h (faultBetween_self cx 0)⟩,
      fun h => h⟩
  · rw [e]
    exact ⟨⟨_, rfl, no_data_no_user _ rfl, fun _ => Or.inl ⟨h0, rfl⟩⟩, fun h => h⟩
  · rw [e]
    exact ⟨⟨_, rfl, no_data_no_user _ rfl, fun h => absurd h (no_fault_one cx 0 h0)⟩,
      fun h => h⟩
  · rw [e]
    dsimp only
    rw [if_neg (by decide)]
    obtain ⟨hp, hf, hd⟩ := hh (Exchange.authenticated authorization u) { store := s, q := 1 }
    exact ⟨⟨_, rfl, hd, fun h => Or.inr ⟨h0, hf (faultBetween_step cx 0 _ h0 h)⟩⟩, hp⟩

/-- The user a middleware attaches to an incoming request is the profile object of a row. -/
theorem attached_user_is_profile (env : Env) (cx : Ctx) (authorization : Option String)
    (db : Db) (o : Obj) :
    ((authenticateToken env cx passOn (Exchange.incoming authorization) db).1.user = some o →
      ∃ u ∈ db.store.users, o = u.select profileCols) ∧
    ((optionalAuth env cx passOn (Exchange.incoming authorization) db).1.user = some o →
      ∃ u ∈ db.store.users, o = u.select profileCols) := by
  unfold authenticateToken optionalAuth
  cases bearerToken (Exchange.incoming authorization).authorization with
  | none => constructor <;> intro h <;> cases h
  | some t =>
    dsimp only
    cases verifyToken env cx.now t with
    | error e => constructor <;> intro h <;> cases h
    | ok d =>
      dsimp only
      rcases executeQuery_cases cx (selectUsersById d.userId) db with e | ⟨a, s, -, hs, e⟩
      · rw [e]; constructor <;> intro h <;> cases h
      · rw [e]
        simp only [selectUsersById, Option.some.injEq, Prod.mk.injEq] at hs
        obtain ⟨rfl, rfl⟩ := hs
        dsimp only
        cases hf : db.store.users.filter (fun u => u.id == d.userId) with
        | nil => constructor <;> intro h <;> cases h
        | cons u rest =>
          have hmem : u ∈ db.store.users := by
            have : u ∈ db.store.users.filter (fun u => u.id == d.userId) := by
              rw [hf]; exact List.mem_cons_self _ _
            exact (List.mem_filter.mp this).1
          dsimp only [passOn]
          constructor <;> intro h <;> simp only [Option.some.injEq] at h <;>
            exact ⟨u, hmem, h.symm⟩

/-- C17: the password hash never leaves the store. For every endpoint of the session flows, every
store, request and fault schedule, the user object of each response sent (register, login,
refresh-token, `GET /profile`, `PUT /profile`; the other endpoints send none) has no `password`
member, and neither has the user object that `authenticateToken` or `optionalAuth` attaches to an
incoming request. -/
theorem password_never_leaves (env : Env) (cx : Ctx) (req : Request) (s : Store)
    (authorization : Option String) (db : Db) :
    (∀ r ∈ (serve env cx req s).1, ∀ d o, r.body.data = some d → d.user = some o →
      o.has "password" = false) ∧
    (∀ o, (authenticateToken env cx passOn (Exchange.incoming authorization) db).1.user = some o →
      o.has "password" = false) ∧
    (∀ o, (optionalAuth env cx passOn (Exchange.incoming authorization) db).1.user = some o →
      o.has "password" = false) := by
  refine ⟨?_, ?_, ?_⟩
  · intro r hr
    cases req with
    | register body =>
      simp only [serve, single, List.mem_singleton] at hr
      subst hr
      exact (register_effect env cx body (Db.fresh s)).2.2
    | login body =>
      simp only [serve, single, List.mem_singleton] at hr
      subst hr
      exact (login_effect env cx body (Db.fresh s)).2.2
    | refreshToken token =>
      simp only [serve, single, List.mem_singleton] at hr
      subst hr
      exact (refreshToken_effect env cx token (Db.fresh s)).2.2
    | logout a token =>
      simp only [serve, routed, logoutRoute] at hr
      obtain ⟨⟨r2, hr2, hd, -⟩, -⟩ := gated_effect env cx (fun _ db => logout cx token db)
        logoutSuccessful a s (fun _ db => (logout_effect cx token db).1)
      rw [hr2, List.mem_singleton] at hr
      subst hr
      exact hd
    | getProfile a =>
      simp only [serve, routed] at hr
      obtain ⟨⟨r2, hr2, hd, -⟩, -⟩ := gated_effect env cx (fun x db => getProfile cx x db)
        _ a s (fun x db => getProfile_effect cx x db)
      rw [hr2, List.mem_singleton] at hr
      subst hr
      exact hd
    | updateProfile a body =>
      simp only [serve, routed] at hr
      obtain ⟨⟨r2, hr2, hd, -⟩, -⟩ := gated_effect env cx
        (fun x db => updateProfile cx body x db) _ a s
        (fun x db => updateProfile_effect cx body x db)
      rw [hr2, List.mem_singleton] at hr
      subst hr
      exact hd
    | forgotPassword email =>
      simp only [serve, single, List.mem_singleton] at hr
      subst hr
      exact (forgotPassword_effect env cx email (Db.fresh s)).2.2
    | resetPassword token password =>
      simp only [serve, single, List.mem_singleton] at hr
      subst hr
      exact (resetPassword_effect env cx token password (Db.fresh s)).1.2.2
    | changePassword a body =>
      simp only [serve, routed] at hr
      obtain ⟨⟨r2, hr2, hd, -⟩, -⟩ := gated_effect env cx
        (fun x db => changePassword env cx body x db) _ a s
        (fun x db => (changePassword_effect env cx body x db).1)
      rw [hr2, List.mem_singleton] at hr
      subst hr
      exact hd
  · intro o h
    obtain ⟨u, -, rfl⟩ := (attached_user_is_profile env cx authorization db o).1 h
    exact (select_no_password u).1
  · intro o h
    obtain ⟨u, -, rfl⟩ := (attached_user_is_profile env cx authorization db o).2 h
    exact (select_no_password u).1

/-- The outcome of `validateRefreshToken` depends on the store only through the ledger. -/
theorem validateRefreshToken_ledger_only (env : Env) (cx : Ctx) (token : String) (s s2 : Store)
    (h : s2.refresh_tokens = s.refresh_tokens) :
    (validateRefreshToken env cx token (Db.fresh s2)).1 =
      (validateRefreshToken env cx token (Db.fresh s)).1 := by
  unfold validateRefreshToken
  cases verifyToken env cx.now token with
  | error e => rfl
  | ok d =>
    dsimp only
    by_cases hq : cx.faults 0 = true
    · have e1 : ∀ st : Store,
          executeQuery cx (selectLiveRefreshTokens cx.now token) (Db.fresh st) =
            (none, { store := st, q := 1 }) := by
        intro st
        simp [executeQuery, Db.fresh, hq]
      rw [e1, e1]
    · simp only [Bool.not_eq_true] at hq
      rw [executeQuery_ok cx _ (Db.fresh s2) _ s2 hq rfl,
        executeQuery_ok cx _ (Db.fresh s) _ s hq rfl]
      simp only [Db.fresh, h]
      split <;> rfl

/-- A gated route leaves the ledger alone when its handler does. -/
theorem gated_ledger (env : Env) (cx : Ctx) (handler : Exchange → Db → Response × Db)
    (authorization : Option String) (s : Store)
    (hh : ∀ x db, (handler x db).2.store.refresh_tokens = db.store.refresh_tokens) :
    (gated env cx handler authorization s).2.store.refresh_tokens = s.refresh_tokens := by
  unfold gated
  rcases gate_cases env cx authorization s with e | e | ⟨-, e⟩ | ⟨-, e⟩ |
    ⟨-, t, d, u, -, -, -, e⟩
  · rw [e]; rfl
  · rw [e]; rfl
  · rw [e]; rfl
  · rw [e]; rfl
  · rw [e]
    dsimp only
    rw [if_neg (by decide)]
    exact hh (Exchange.authenticated authorization u) { store := s, q := 1 }

/-- C20: changing or resetting a password does not end existing sessions. For every store,
request and fault schedule, the reset-password handler and the change-password route (successful
or not) leave the refresh-token ledger exactly as it was, so `validateRefreshToken` decides every
refresh token after the password change as it did before, at any time. -/
theorem password_change_keeps_sessions (env : Env) (cx : Ctx) (s : Store)
    (resetToken password : String) (authorization : Option String)
    (body : ChangePasswordBody) :
    (resetPassword env cx resetToken password (Db.fresh s)).2.store.refresh_tokens =
      s.refresh_tokens ∧
    (gated env cx (fun x db => changePassword env cx body x db) authorization
        s).2.store.refresh_tokens = s.refresh_tokens ∧
    (∀ (cx2 : Ctx) (t : String),
      (validateRefreshToken env cx2 t
          (Db.fresh (resetPassword env cx resetToken password (Db.fresh s)).2.store)).1 =
        (validateRefreshToken env cx2 t (Db.fresh s)).1) ∧
    (∀ (cx2 : Ctx) (t : String),
      (validateRefreshToken env cx2 t
          (Db.fresh (gated env cx (fun x db => changePassword env cx body x db) authorization
            s).2.store)).1 =
        (validateRefreshToken env cx2 t (Db.fresh s)).1) := by
  have h1 := (resetPassword_effect env cx resetToken password (Db.fresh s)).2
  have h2 := gated_ledger env cx (fun x db => changePassword env cx body x db) authorization s
    (fun x db => (changePassword_effect env cx body x db).2)
  exact ⟨h1, h2, fun cx2 t => validateRefreshToken_ledger_only env cx2 t _ _ h1,
    fun cx2 t => validateRefreshToken_ledger_only env cx2 t _ _ h2⟩

/-- The fault case of a gated route as a choice on the first query. -/
theorem gated_fault (env : Env) (cx : Ctx) (handler : Exchange → Db → Response × Db)
    (onFault : Response) (authorization : Option String) (s : Store)
    (hh : ∀ x db, Effect cx onFault db (handler x db)) :
    (∃ r, (gated env cx handler authorization s).1.responses = [r]) ∧
    (faultBetween cx 0 (gated env cx handler authorization s).2.q →
      (gated env cx handler authorization s).1.responses =
        if cx.faults 0 = true then [failure 403 "Invalid or expired token"] else [onFault]) := by
  obtain ⟨⟨r, hr, -, hf⟩, -⟩ := gated_effect env cx handler onFault authorization s hh
  refine ⟨⟨r, hr⟩, fun h => ?_⟩
  rcases hf h with ⟨h0, rfl⟩ | ⟨h0, rfl⟩
  · rw [hr, if_pos h0]
  · rw [hr, if_neg (by rw [h0]; decide)]

/-- C15 (amended): every request to an endpoint of the session flows ends with exactly one
response, under every fault schedule (no exception escapes a handler). When a query issued while
serving the request hit a storage fault, that response is: 500 with `success: false` for register,
login, forgot-password and reset-password; 401 `Invalid or expired refresh token` for
refresh-token; for the gated endpoints 403 `Invalid or expired token` when the failed query is the
user lookup of the gate, and otherwise 500 with `success: false` for `GET /profile`, `PUT /profile`
and change-password, and the 200 `Logout successful` for logout. -/
theorem storage_fault_responses (env : Env) (cx : Ctx) (req : Request) (s : Store) :
    (∃ r, (serve env cx req s).1 = [r]) ∧
    (faultBetween cx 0 (serve env cx req s).2.q →
      (serve env cx req s).1 =
        match req with
        | Request.register _ => [failure 500 "Internal server error during registration"]
        | Request.login _ => [failure 500 "Internal server error during login"]
        | Request.refreshToken _ => [failure 401 "Invalid or expired refresh token"]
        | Request.forgotPassword _ => [failure 500 "Internal server error"]
        | Request.resetPassword _ _ => [failure 500 "Internal server error during password reset"]
        | Request.logout _ _ =>
          if cx.faults 0 = true then [failure 403 "Invalid or expired token"]
          else [logoutSuccessful]
        | Request.getProfile _ =>
          if cx.faults 0 = true then [failure 403 "Invalid or expired token"]
          else [failure 500 "Internal server error"]
        | Request.updateProfile _ _ =>
          if cx.faults 0 = true then [failure 403 "Invalid or expired token"]
          else [failure 500 "Internal server error during profile update"]
        | Request.changePassword _ _ =>
          if cx.faults 0 = true then [failure 403 "Invalid or expired token"]
          else [failure 500 "Internal server error during password change"]) := by
  cases req with
  | register body =>
    refine ⟨⟨_, rfl⟩, fun h => ?_⟩
    simp only [serve, single] at h ⊢
    rw [(register_effect env cx body (Db.fresh s)).2.1 h]
  | login body =>
    refine ⟨⟨_, rfl⟩, fun h => ?_⟩
    simp only [serve, single] at h ⊢
    rw [(login_effect env cx body (Db.fresh s)).2.1 h]
  | refreshToken token =>
    refine ⟨⟨_, rfl⟩, fun h => ?_⟩
    simp only [serve, single] at h ⊢
    rw [(refreshToken_effect env cx token (Db.fresh s)).2.1 h]
  | forgotPassword email =>
    refine ⟨⟨_, rfl⟩, fun h => ?_⟩
    simp only [serve, single] at h ⊢
    rw [(forgotPassword_effect env cx email (Db.fresh s)).2.1 h]
  | resetPassword token password =>
    refine ⟨⟨_, rfl⟩, fun h => ?_⟩
    simp only [serve, single] at h ⊢
    rw [(resetPassword_effect env cx token password (Db.fresh s)).1.2.1 h]
  | logout a token =>
    exact gated_fault env cx (fun _ db => logout cx token db) logoutSuccessful a s
      (fun _ db => (logout_effect cx token db).1)
  | getProfile a =>
    exact gated_fault env cx (fun x db => getProfile cx x db) _ a s
      (fun x db => getProfile_effect cx x db)
  | updateProfile a body =>
    exact gated_fault env cx (fun x db => updateProfile cx body x db) _ a s
      (fun x db => updateProfile_effect cx body x db)
  | changePassword a body =>
    exact gated_fault env cx (fun x db => changePassword env cx body x db) _ a s
      (fun x db => (changePassword_effect env cx body x db).1)

/-- Counterexample to C15 as stated: a failed ledger query in refresh-token is answered 401, a
failed user lookup in the gate of `GET /profile` is answered 403, and a failed DELETE in logout is
answered 200 with `success: true`; none of them is a 500. -/
theorem storage_fault_counterexample :
    (faultyFirstQuery.faults 0 = true ∧
      (serve demoEnv faultyFirstQuery (Request.refreshToken "refresh-1") demoStore).2.q = 1 ∧
      (serve demoEnv faultyFirstQuery (Request.refreshToken "refresh-1") demoStore).1 =
        [failure 401 "Invalid or expired refresh token"]) ∧
    ((serve demoEnv faultyFirstQuery (Request.getProfile (some "Bearer access-1"))
        demoStore).2.q = 1 ∧
      (serve demoEnv faultyFirstQuery (Request.getProfile (some "Bearer access-1"))
        demoStore).1 = [failure 403 "Invalid or expired token"]) ∧
    (faultySecondQuery.faults 1 = true ∧
      (serve demoEnv faultySecondQuery
        (Request.logout (some "Bearer access-1") (some "refresh-1")) demoStore).2.q = 2 ∧
      (serve demoEnv faultySecondQuery
        (Request.logout (some "Bearer access-1") (some "refresh-1")) demoStore).1 =
        [{ status := 200,
           body := { success := true, message := some "Logout successful", data := none } }]) := by
  decide

/-- Serving one request keeps the pairing of reset token and expiry. -/
theorem serve_paired (env : Env) (cx : Ctx) (req : Request) (s : Store) (hp : Paired s) :
    Paired (serve env cx req s).2.store := by
  cases req with
  | register body => exact (register_effect env cx body (Db.fresh s)).1 hp
  | login body => exact (login_effect env cx body (Db.fresh s)).1 hp
  | refreshToken token => exact (refreshToken_effect env cx token (Db.fresh s)).1 hp
  | forgotPassword email => exact (forgotPassword_effect env cx email (Db.fresh s)).1 hp
  | resetPassword token password =>
    exact (resetPassword_effect env cx token password (Db.fresh s)).1.1 hp
  | logout a token =>
    exact (gated_effect env cx (fun _ db => logout cx token db) logoutSuccessful a s
      (fun _ db => (logout_effect cx token db).1)).2 hp
  | getProfile a =>
    exact (gated_effect env cx (fun x db => getProfile cx x db) _ a s
      (fun x db => getProfile_effect cx x db)).2 hp
  | updateProfile a body =>
    exact (gated_effect env cx (fun x db => updateProfile cx body x db) _ a s
      (fun x db => updateProfile_effect cx body x db)).2 hp
  | changePassword a body =>
    exact (gated_effect env cx (fun x db => changePassword env cx body x db) _ a s
      (fun x db => (changePassword_effect env cx body x db).1)).2 hp

/-- Serving any sequence of requests keeps the pairing. -/
theorem serveAll_paired (env : Env) (reqs : List (Ctx × Request)) (s : Store) (hp : Paired s) :
    Paired (serveAll env reqs s) := by
  induction reqs generalizing s with
  | nil => exact hp
  | cons r rest ih =>
    obtain ⟨cx, req⟩ := r
    exact ih _ (serve_paired env cx req s hp)

/-- The reset-password handler refuses, with 400, a token that is held only with an expiry that
has passed. -/
theorem resetPassword_refuses_expired (env : Env) (cx : Ctx) (t password : String) (s : Store)
    (hexp : ∀ u ∈ s.users, u.password_reset_token = some t →
      ∀ e, u.password_reset_expires = some e → e ≤ cx.now)
    (h0 : cx.faults 0 = false) :
    (resetPassword env cx t password (Db.fresh s)).1 =
      failure 400 "Invalid or expired reset token" := by
  have hnil : s.users.filter (fun u =>
      u.password_reset_token == some t &&
        (match u.password_reset_expires with
          | none => false
          | some e => decide (cx.now < e))) = [] := by
    rw [List.filter_eq_nil_iff]
    intro u hu hc
    simp only [Bool.and_eq_true, beq_iff_eq] at hc
    obtain ⟨htok, hlive⟩ := hc
    cases he : u.password_reset_expires with
    | none => rw [he] at hlive; cases hlive
    | some e =>
      rw [he] at hlive
      simp only [decide_eq_true_eq] at hlive
      have := hexp u hu htok e he
      omega
  unfold resetPassword
  rw [executeQuery_ok cx (selectUsersByResetToken cx.now t) (Db.fresh s) [] s h0
    (by simp only [selectUsersByResetToken, Db.fresh]; rw [hnil])]

/-- C14 (amended): in every store reached by session-flow requests from a store in which reset
token and expiry are paired (the empty store is one), each user's reset token is either absent or
paired with an expiry timestamp, and absent exactly when the expiry is absent; the expiry need not
lie in the future. A served forgot-password request for a stored email writes its new random token,
with an expiry, into every row with the id of the user found, replacing what was there, and leaves
the other rows as they were, so a user holds at most one reset token. -/
theorem reset_token_pairing (env : Env) (reqs : List (Ctx × Request)) (s : Store)
    (hp : Paired s) :
    (∀ u ∈ (serveAll env reqs s).users,
      u.password_reset_token = none ∨ ∃ e, u.password_reset_expires = some e) ∧
    Paired (serveAll env reqs s) ∧
    Paired (serveAll env reqs emptyStore) ∧
    (∀ (cx : Ctx) (email : String) (user : UserRow) (rest : List UserRow),
      s.users.filter (fun u => u.email == email) = user :: rest →
      cx.faults 0 = false → cx.faults 1 = false →
      List.Forall₂
        (fun old new =>
          (old.id = user.id →
            new.password_reset_token = some cx.randomHex ∧
              (∃ e, new.password_reset_expires = some e) ∧ new.id = old.id) ∧
          (old.id ≠ user.id → new = old))
        s.users (forgotPassword env cx email (Db.fresh s)).2.store.users) := by
  have hreach := serveAll_paired env reqs s hp
  refine ⟨?_, hreach, serveAll_paired env reqs emptyStore ?_, ?_⟩
  · intro u hu
    have hu2 := hreach u hu
    cases htok : u.password_reset_token with
    | none => exact Or.inl rfl
    | some t =>
      right
      cases he : u.password_reset_expires with
      | none => rw [hu2.mpr he] at htok; cases htok
      | some e => exact ⟨e, rfl⟩
  · intro u hu
    cases hu
  · intro cx email user rest hf h0 h1
    unfold forgotPassword
    rw [executeQuery_ok cx (selectUsersByEmail email) (Db.fresh s) (user :: rest) s h0
      (by simp only [selectUsersByEmail, Db.fresh, hf])]
    dsimp only
    rw [executeQuery_ok cx _ _ () _ h1 rfl]
    dsimp only
    rw [List.forall₂_map_right_iff, List.forall₂_same]
    intro r _
    by_cases hr : r.id = user.id
    · have hbeq : (r.id == user.id) = true := by simp [hr]
      rw [if_pos hbeq]
      refine ⟨fun _ => ?_, fun h => absurd hr h⟩
      split
      · rename_i heq
        exact ⟨by rw [← heq], ⟨env.addLocalHours cx.now 1, by rw [← heq]⟩, rfl⟩
      · exact ⟨rfl, ⟨_, rfl⟩, rfl⟩
    · have hne : (r.id == user.id) = false := by simp [hr]
      simp [hne, hr]

/-- Witness of C14 (amended): the demo store has token and expiry paired. -/
theorem reset_token_pairing_witness :
    Paired demoStore ∧
    Paired (serveAll demoEnv
      [(demoCtx, Request.forgotPassword "alice@example.com"),
        (muchLaterCtx, Request.login { email := "alice@example.com", password := "Secret1" })]
      demoStore) :=
  ⟨by unfold Paired; decide,
    (reset_token_pairing demoEnv
      [(demoCtx, Request.forgotPassword "alice@example.com"),
        (muchLaterCtx, Request.login { email := "alice@example.com", password := "Secret1" })]
      demoStore (by unfold Paired; decide)).2.1⟩

/-- Counterexample to C14 as stated: register, forgot-password at time 200 and a login at time
9000, from the empty store. In the store reached, at the time of the last request, the user holds
a reset token whose expiry (3800) does not lie in the future. -/
theorem reset_token_expiry_counterexample :
    ∃ u ∈ (serveAll demoEnv
        [(demoCtx, Request.register bob),
          (laterCtx, Request.forgotPassword "bob@example.com"),
          (muchLaterCtx, Request.login { email := "bob@example.com", password := "Secret2" })]
        emptyStore).users,
      u.password_reset_token = some "decaf" ∧ u.password_reset_expires = some 3800 ∧
        3800 ≤ muchLaterCtx.now := by
  decide

end Ikiraha
